import Mathlib

/-!
Verification of the partest project generator (src/partest/project_gen/).

This file gives a shallow embedding of the generator components that the
checked claims are about:

  - models_tests.py   (TestsContainer): endpoint grouping, the resource-id
    inference engine, and the test-case emitter;
  - models_validates.py (ValidationsContainer): model naming and the
    recursive Pydantic-model emitter with its per-file dedup set;
  - models_endpoints.py (EndpointsContainer): catalog loading and the
    paths.py / configs.py emitters.

Conventions of the embedding:
  - Python dicts are insertion-ordered association lists
    (List (String × α)); Python sets are modelled as insertion-ordered
    duplicate-free lists (CPython set iteration order is unspecified,
    insertion order is the fixed choice of this model).
  - JSON schemas are modelled by the mutually inductive Schema type below,
    carrying exactly the keys the generator reads (type, format,
    properties, items, required, nullable).  A missing key is an Option
    none / empty list.  An absent or empty (falsy) schema dict is
    modelled as Option.none at its use sites.
  - File I/O stops at an Except boundary: each container takes the result
    of reading api_reference.json as an Except String Catalog value.
  - Machine strings are Lean String; Python str.lower/str.upper are
    String.toLower/String.toUpper (sources are ASCII identifiers).
-/

/-! ## Generic string and association-list helpers -/

/-- Remove every occurrence of a character (Python str.replace(c, "")). -/
def remove_ch (c : Char) (s : String) : String :=
  String.mk (s.data.filter (fun x => x != c))

/-- Replace every occurrence of a character (Python str.replace(a, b) for
one-character strings). -/
def replace_ch (a b : Char) (s : String) : String :=
  String.mk (s.data.map (fun x => if x = a then b else x))

/-- Python str.capitalize(): first character upper-cased, the rest
lower-cased. -/
def py_capitalize (s : String) : String :=
  match s.data with
  | [] => ""
  | c :: rest => String.mk (c.toUpper :: rest.map Char.toLower)

/-- Python str.lower() (character-wise; kernel-computable unlike
String.toLower). -/
def py_lower (s : String) : String :=
  String.mk (s.data.map Char.toLower)

/-- Python str.upper() (character-wise). -/
def py_upper (s : String) : String :=
  String.mk (s.data.map Char.toUpper)

/-- Python s.split(c) on character lists: splitting on every occurrence
of the separator, keeping empty pieces ("" splits to [""]). -/
def split_chars (c : Char) : List Char → List (List Char)
  | [] => [[]]
  | x :: rest =>
    let r := split_chars c rest
    if x = c then [] :: r
    else
      match r with
      | [] => [[x]]
      | h :: t => (x :: h) :: t

/-- Python s.split(c) for a one-character separator. -/
def split_on_char (c : Char) (s : String) : List String :=
  (split_chars c s.data).map String.mk

/-- sep.join(xs) on character lists. -/
def join_data (sep : List Char) : List (List Char) → List Char
  | [] => []
  | [x] => x
  | x :: rest => x ++ sep ++ join_data sep rest

/-- Python sep.join(xs). -/
def join_with (sep : String) (xs : List String) : String :=
  String.mk (join_data sep.data (xs.map String.data))

/-- Python s.startswith(p). -/
def starts_with (p s : String) : Bool :=
  p.data.isPrefixOf s.data

/-- Python s.endswith(p). -/
def ends_with (p s : String) : Bool :=
  p.data.isSuffixOf s.data

/-- Lexicographic comparison of character lists by code point (the
Python string order used by sorted on tuples of strings). -/
def chars_le : List Char → List Char → Bool
  | [], _ => true
  | _ :: _, [] => false
  | a :: as1, b :: bs1 => if a = b then chars_le as1 bs1 else decide (a < b)

/-- Python string less-or-equal. -/
def py_str_le (a b : String) : Bool :=
  chars_le a.data b.data

/-- The characters after the first space: Python s.split(" ", 1)[-1]
returns the remainder after the first space, or the whole string when it
has no space. -/
def after_first_space : List Char → List Char
  | [] => []
  | c :: rest => if c = ' ' then rest else after_first_space rest

/-- Python s.split(" ", 1)[-1]. -/
def split_space_tail (s : String) : String :=
  if s.data.contains ' ' then String.mk (after_first_space s.data) else s

/-- Python s.lstrip("/"). -/
def lstrip_slash (s : String) : String :=
  String.mk (s.data.dropWhile (fun c => c == '/'))

/-- Python s.strip("/"). -/
def strip_slash (s : String) : String :=
  String.mk (((s.data.dropWhile (fun c => c == '/')).reverse.dropWhile (fun c => c == '/')).reverse)

/-- Python s[n:] (character slicing from index n; empty beyond the end). -/
def string_drop (s : String) (n : Nat) : String :=
  String.mk (s.data.drop n)

/-- Scan for the two-character substring "id" (used for the Python test
`"id" in s`). -/
def has_id_sub : List Char → Bool
  | [] => false
  | c :: rest =>
    (c == 'i' && (match rest with
      | d :: _ => d == 'd'
      | [] => false)) || has_id_sub rest

/-- Python `"id" in s.lower()`. -/
def contains_id_ci (s : String) : Bool :=
  has_id_sub (py_lower s).data

/-- Replace every occurrence of the substring "Id" by "_id"
(Python s.replace("Id", "_id")). -/
def replace_Id_sub : List Char → List Char
  | 'I' :: 'd' :: rest => '_' :: 'i' :: 'd' :: replace_Id_sub rest
  | c :: rest => c :: replace_Id_sub rest
  | [] => []

/-- models_tests.py line 141: param.replace("Id", "_id").lower(). -/
def snake_case (s : String) : String :=
  py_lower (String.mk (replace_Id_sub s.data))

/-- Python "\n".join(lines). -/
def join_lines (lines : List String) : String :=
  join_with "\n" lines

/-- Python str(x) for an optional integer (str(None) is "None"). -/
def py_str_opt : Option Nat → String
  | Option.none => "None"
  | Option.some n => toString n

/-- Python `o or d` for an optional string (None and "" are falsy). -/
def py_or_str (o : Option String) (d : String) : String :=
  match o with
  | Option.none => d
  | Option.some s => if s = "" then d else s

/-- First-match lookup in an insertion-ordered association list
(Python dict indexing / .get). -/
def lookupA {α : Type} : List (String × α) → String → Option α
  | [], _ => Option.none
  | kv :: rest, k => if kv.1 = k then Option.some kv.2 else lookupA rest k

/-- Python dict assignment d[k] = v: overwrite in place, else append. -/
def set_assoc {α : Type} : List (String × α) → String → α → List (String × α)
  | [], k, v => [(k, v)]
  | kv :: rest, k, v => if kv.1 = k then (kv.1, v) :: rest else kv :: set_assoc rest k v

/-- Python set.add collected in insertion order. -/
def insert_unique (l : List String) (x : String) : List String :=
  if x ∈ l then l else l ++ [x]

/-- Python list(set(l)), modelled with insertion iteration order. -/
def ordered_dedup (l : List String) : List String :=
  l.foldl insert_unique []

/-! ## JSON leaf values (enum entries and examples interpolated into
generated code) -/

/-- A JSON scalar as it appears in parameter schemas (enum entries,
examples). -/
inductive JVal : Type where
  | s (v : String)
  | i (v : Int)
  | b (v : Bool)
  | null
deriving DecidableEq

/-- Python repr of a JSON scalar (single-quoted strings; the embedding
assumes values without quotes or escapes, which is what repr emits for
plain identifiers). -/
def py_repr : JVal → String
  | JVal.s v => "\x27" ++ v ++ "\x27"
  | JVal.i v => toString v
  | JVal.b true => "True"
  | JVal.b false => "False"
  | JVal.null => "None"

/-- json.dumps of a JSON scalar (double-quoted strings, lowercase
booleans). -/
def json_dumps : JVal → String
  | JVal.s v => "\"" ++ v ++ "\""
  | JVal.i v => toString v
  | JVal.b true => "true"
  | JVal.b false => "false"
  | JVal.null => "null"

/-- Python repr of a list of JSON scalars. -/
def py_repr_list (vs : List JVal) : String :=
  "[" ++ join_with ", " (vs.map py_repr) ++ "]"

/-- Python repr of a list of plain strings. -/
def py_repr_str_list (vs : List String) : String :=
  "[" ++ join_with ", " (vs.map (fun v => "\x27" ++ v ++ "\x27")) ++ "]"

/-! ## JSON schemas

The response/request schemas the generator reads.  `SProps` is the
insertion-ordered properties dict, `SItems` the optional items schema. -/

mutual
inductive Schema : Type where
  | mk (type : Option String) (format : Option String) (properties : SProps)
      (items : SItems) (required : List String) (nullable : Option Bool) : Schema

inductive SProps : Type where
  | nil : SProps
  | cons (name : String) (schema : Schema) (rest : SProps) : SProps

inductive SItems : Type where
  | none : SItems
  | some (schema : Schema) : SItems
end

deriving instance DecidableEq for Schema, SProps, SItems

def Schema.type : Schema → Option String
  | Schema.mk t _ _ _ _ _ => t

def Schema.format : Schema → Option String
  | Schema.mk _ f _ _ _ _ => f

def Schema.properties : Schema → SProps
  | Schema.mk _ _ p _ _ _ => p

def Schema.items : Schema → SItems
  | Schema.mk _ _ _ i _ _ => i

def Schema.required : Schema → List String
  | Schema.mk _ _ _ _ r _ => r

def Schema.nullable : Schema → Option Bool
  | Schema.mk _ _ _ _ _ n => n

/-- The property names, in declaration order. -/
def SProps.keys : SProps → List String
  | SProps.nil => []
  | SProps.cons n _ rest => n :: rest.keys

/-- Python properties[field] lookup. -/
def SProps.lookup : SProps → String → Option Schema
  | SProps.nil, _ => Option.none
  | SProps.cons n s rest, k => if n = k then Option.some s else rest.lookup k

/-- Properties as an ordered list of (name, schema) pairs. -/
def SProps.toList : SProps → List (String × Schema)
  | SProps.nil => []
  | SProps.cons n s rest => (n, s) :: rest.toList

/-- Build an ordered properties dict from a list. -/
def SProps.ofList : List (String × Schema) → SProps
  | [] => SProps.nil
  | (n, s) :: rest => SProps.cons n s (SProps.ofList rest)

/-- A convenience constructor for an object schema with the given
properties and required list. -/
def Schema.obj (props : List (String × Schema)) (required : List String := []) : Schema :=
  Schema.mk (Option.some "object") Option.none (SProps.ofList props) SItems.none required Option.none

/-- A convenience constructor for a scalar schema. -/
def Schema.scalar (type : String) (format : Option String := Option.none) : Schema :=
  Schema.mk (Option.some type) format SProps.nil SItems.none [] Option.none

/-! ## Catalog records (api_reference.json) -/

/-- The schema sub-dict of a request parameter, as read by
models_endpoints.py (enum / example / type / format). -/
structure ParamSchema where
  enum : Option (List JVal) := Option.none
  example_ : Option JVal := Option.none
  type : Option String := Option.none
  format : Option String := Option.none

/-- One entry of an endpoint parameter list. -/
structure Param where
  name : String
  type : String
  schema : ParamSchema := {}

/-- One response entry: status_code, schema, content_type. -/
structure Response where
  status_code : Option Nat := Option.none
  schema : Option Schema := Option.none
  content_type : Option String := Option.none

/-- One raw catalog entry of api_reference.json, with exactly the keys
the generators read.  request_body is kept as its truthiness. -/
structure RawEndpoint where
  path : Option String := Option.none
  method : Option String := Option.none
  description : Option String := Option.none
  parameters : List Param := []
  request_body : Bool := false
  responses : List (String × Response) := []
  source_title : Option String := Option.none

/-- The catalog: an ordered mapping from "METHOD /path" keys to entries. -/
def Catalog : Type := List (String × RawEndpoint)

/-- The grouped endpoint record built by
TestsContainer._get_endpoint_groups. -/
structure Endpoint where
  path : String
  method : String
  description : String
  parameters : List Param
  request_body : Bool
  responses : List (String × Response)
  endpoint_name : String
  path_parameters : List String
  title : String

/-- The per-service identifier mapping built by
TestsContainer._predict_id_usage. -/
structure IdMapping where
  source : String
  source_test_name : String
  id_field : String
  used_in : List String

/-- A generated test file (models_tests.TestFile). -/
structure TestFile where
  name : String
  content : String

/-- A generated endpoint file (models_endpoints.EndpointFile). -/
structure EndpointFile where
  name : String
  content : String

deriving instance DecidableEq for ParamSchema, Param, Response, RawEndpoint, Endpoint, IdMapping

/-! ## models_tests.py: TestsContainer -/

/-- models_tests.TestsContainer._clean_name: remove braces, replace
dash, dot and space by underscore. -/
def clean_name (s : String) : String :=
  replace_ch ' ' '_' (replace_ch '.' '_' (replace_ch '-' '_' (remove_ch '}' (remove_ch '{' s))))

/-- The title sanitization of _get_service_and_title:
source.get("title", "common").lower().replace(" ", "_").replace("{", "").replace("}", ""). -/
def sanitize_title (s : String) : String :=
  remove_ch '}' (remove_ch '{' (replace_ch ' ' '_' (py_lower s)))

/-- The service sanitization of _get_service_and_title:
parts[0].lower().replace("{", "").replace("}", ""). -/
def sanitize_service (s : String) : String :=
  remove_ch '}' (remove_ch '{' (py_lower s))

/-- models_tests.TestsContainer._get_service_and_title. -/
def get_service_and_title (cat : Catalog) (endpoint : String) : String × String :=
  let details := (lookupA cat endpoint).getD {}
  let source_title := details.source_title.getD "common"
  let title := sanitize_title source_title
  let endpoint_clean := lstrip_slash (split_space_tail endpoint)
  let parts := split_on_char '/' endpoint_clean
  let service := match parts with
    | [] => "common"   -- dead branch: splitOn never returns []
    | p :: _ => sanitize_service p
  let service := if service = "users_profile" then "profile" else service
  (service, title)

/-- Append an endpoint to its service group, creating the group at the
end on first use (Python dict insertion order). -/
def insert_group (groups : List (String × List Endpoint)) (k : String) (e : Endpoint) :
    List (String × List Endpoint) :=
  match groups with
  | [] => [(k, [e])]
  | (k1, es) :: rest => if k1 = k then (k1, es ++ [e]) :: rest else (k1, es) :: insert_group rest k e

/-- models_tests.TestsContainer._get_endpoint_groups. -/
def get_endpoint_groups (cat : Catalog) : List (String × List Endpoint) :=
  cat.foldl (fun groups kv =>
    let endpoint_path := kv.1
    let d := kv.2
    let path_parts := split_on_char '/' endpoint_path
    let st := get_service_and_title cat endpoint_path
    let service := clean_name st.1
    let path_parameters := (d.parameters.filter (fun p => p.type == "path")).map (fun p => p.name)
    let e : Endpoint := {
      path := endpoint_path,
      method := py_upper (d.method.getD ""),
      description := d.description.getD "",
      parameters := d.parameters,
      request_body := d.request_body,
      responses := d.responses,
      endpoint_name := clean_name (path_parts.getLast?.getD ""),
      path_parameters := path_parameters,
      title := st.2 }
    insert_group groups service e) []

/-- models_tests.TestsContainer._get_path_parameters.  The source
re-derives the groups from the catalog via _get_endpoint_groups; the
embedding passes the (identical) groups value explicitly.  The set of
unique parameters is modelled in insertion order. -/
def get_path_parameters (groups : List (String × List Endpoint)) (service : String) :
    List String :=
  let endpoints := (lookupA groups service).getD []
  endpoints.foldl (fun unique e =>
    if e.method ≠ "POST" ∧ e.path_parameters ≠ [] then
      e.path_parameters.foldl insert_unique unique
    else unique) []

/-- The first response whose str(status_code) starts with "2"
(iterating responses.values() in dict order). -/
def first_success (responses : List (String × Response)) : Option Response :=
  (responses.map (fun kv => kv.2)).find? (fun r => starts_with "2" (py_str_opt r.status_code))

/-- models_tests.TestsContainer._find_resource_id_field. -/
def find_resource_id_field (groups : List (String × List Endpoint)) (service : String)
    (responses : List (String × Response)) : Option String :=
  let path_params := get_path_parameters groups service
  match first_success responses with
  | Option.none => Option.none
  | Option.some success =>
    match success.schema with
    | Option.none => Option.none   -- also covers a falsy (empty) schema value
    | Option.some schema =>
      if success.content_type = Option.some "text/plain" ∧ schema.type = Option.some "string"
          ∧ schema.format = Option.some "uuid" then
        Option.some (py_lower service ++ "Id")
      else if schema.type = Option.some "string" then
        Option.some "response"
      else if schema.type = Option.some "object" ∧ schema.properties ≠ SProps.nil then
        match path_params.find? (fun p => schema.properties.keys.contains p) with
        | Option.some p => Option.some p
        | Option.none =>
          match path_params.find? (fun p => schema.properties.keys.contains (snake_case p)) with
          | Option.some p => Option.some (snake_case p)
          | Option.none =>
            (schema.properties.toList.find?
              (fun f => contains_id_ci f.1 && (f.2.format == Option.some "uuid"))).map
              (fun f => f.1)
      else Option.none

/-- The test-name suffix used by _predict_id_usage for the source test:
"default" for a root endpoint, else "{endpoint_name}_default". -/
def source_test_suffix (service : String) (e : Endpoint) : String :=
  if e.endpoint_name = service then "default" else e.endpoint_name ++ "_default"

/-- The source_test_name synthesized by _predict_id_usage. -/
def source_test_name_for (service : String) (e : Endpoint) : String :=
  "test_" ++ py_lower e.method ++ "_" ++ service ++ "_" ++ source_test_suffix service e

/-- The IdentifierMapping value written by _predict_id_usage for a
qualifying POST with inferred field. -/
def mk_id_mapping (service : String) (e : Endpoint) (field : String) : IdMapping :=
  { source := e.path, source_test_name := source_test_name_for service e,
    id_field := field, used_in := [] }

/-- Python `code in endpoint["responses"]`. -/
def responses_have_code (rs : List (String × Response)) (code : String) : Bool :=
  rs.any (fun kv => kv.1 == code)

/-- The body of the first loop of _predict_id_usage for one endpoint:
for a POST with a "200" or "201" response and an inferred field, record
the mapping (overwriting any previous one for the service). -/
def predict_phase1_endpoint (groups : List (String × List Endpoint)) (service : String)
    (maps : List (String × IdMapping)) (e : Endpoint) : List (String × IdMapping) :=
  if e.method = "POST" then
    ["200", "201"].foldl (fun m code =>
      if responses_have_code e.responses code then
        match find_resource_id_field groups service e.responses with
        | Option.some f => set_assoc m service (mk_id_mapping service e f)
        | Option.none => m
      else m) maps
  else maps

/-- The first loop of _predict_id_usage over all services. -/
def predict_phase1 (groups : List (String × List Endpoint)) : List (String × IdMapping) :=
  groups.foldl (fun maps g => g.2.foldl (predict_phase1_endpoint groups g.1) maps) []

/-- Append one operation path to the used_in list of a service mapping
(in-place dict update). -/
def append_used_in (maps : List (String × IdMapping)) (service : String) (path : String) :
    List (String × IdMapping) :=
  maps.map (fun kv =>
    if kv.1 = service then (kv.1, { kv.2 with used_in := kv.2.used_in ++ [path] }) else kv)

/-- The parameter-loop body of the second loop of _predict_id_usage:
append the operation path when the parameter is a path parameter whose
name equals the id_field or contains "id" case-insensitively.  The
lookup cannot fail (the caller checked the service key); the none
branch is inert. -/
def phase2_param_step (service path : String) (m : List (String × IdMapping)) (p : Param) :
    List (String × IdMapping) :=
  if p.type = "path" then
    match lookupA m service with
    | Option.some mp =>
      if p.name = mp.id_field ∨ contains_id_ci p.name then append_used_in m service path
      else m
    | Option.none => m
  else m

/-- The body of the second loop of _predict_id_usage for one dependent
endpoint. -/
def predict_phase2_endpoint (service : String) (maps : List (String × IdMapping))
    (e : Endpoint) : List (String × IdMapping) :=
  if e.method ∈ ["GET", "PUT", "DELETE", "PATCH"] then
    e.parameters.foldl (phase2_param_step service e.path) maps
  else maps

/-- The second loop of _predict_id_usage over all services. -/
def predict_phase2 (groups : List (String × List Endpoint))
    (maps0 : List (String × IdMapping)) : List (String × IdMapping) :=
  groups.foldl (fun maps g =>
    if (lookupA maps g.1).isSome then g.2.foldl (predict_phase2_endpoint g.1) maps
    else maps) maps0

/-- models_tests.TestsContainer._predict_id_usage. -/
def predict_id_usage (groups : List (String × List Endpoint)) : List (String × IdMapping) :=
  predict_phase2 groups (predict_phase1 groups)

/-- The method rank dict of _generate_test_content
(method_order.get(method, 5)). -/
def method_order (m : String) : Nat :=
  if m = "POST" then 0
  else if m = "PUT" then 1
  else if m = "GET" then 2
  else if m = "PATCH" then 3
  else if m = "DELETE" then 4
  else 5

/-- The sort key comparison of _generate_test_content: Python tuple
comparison on (method rank, path). -/
def sort_key_le (a b : Endpoint) : Bool :=
  decide (method_order a.method < method_order b.method ∨
    (method_order a.method = method_order b.method ∧ py_str_le a.path b.path = true))

/-- Stable insertion into a list sorted by sort_key_le: an element goes
after every earlier element with a key less than or equal to its own. -/
def insert_by_key (x : Endpoint) : List Endpoint → List Endpoint
  | [] => [x]
  | y :: ys => if sort_key_le y x then y :: insert_by_key x ys else x :: y :: ys

/-- Python sorted(endpoints, key=(rank, path)): modelled as a stable
insertion sort, which agrees with any stable sort on this total
preorder. -/
def py_sort_endpoints (l : List Endpoint) : List Endpoint :=
  l.foldl (fun acc x => insert_by_key x acc) []

/-- The type of the success schema as read by line 268 of
models_tests.py: success_response.get("schema", {}).get("type"). -/
def success_schema_type (r : Response) : Option String :=
  match r.schema with
  | Option.none => Option.none
  | Option.some s => s.type

/-- The class-level preamble of one generated test file: imports, allure
decorators, the class line, and the shared resource_id slot when the
service has an identifier mapping. -/
def class_header_lines (service title : String) (maps : List (String × IdMapping)) :
    List String :=
  ["import allure",
   "import pytest",
   "",
   "",
   "@allure.story(\x27" ++ (py_capitalize service ++ "\x27)"),
   "@allure.label(\"suite\", \"API\")",
   "@allure.label(\"component\", \"" ++ (py_capitalize service ++ "\")"),
   "@allure.label(\"owner\", \"" ++ (py_capitalize title ++ "\")"),
   "@pytest.mark.asyncio",
   "class Test" ++ (py_capitalize service ++ "Default:")]
  ++ (if (lookupA maps service).isSome then ["    resource_id: str = None"] else [])
  ++ [""]

/-- The loop body of _generate_test_content for one endpoint: the lines
of one test method, or [] when the endpoint has no success response
(the loop continues past it). -/
def method_lines (service title : String) (maps : List (String × IdMapping))
    (e : Endpoint) : List String :=
  match first_success e.responses with
  | Option.none => []
  | Option.some success =>
    let method := e.method
    let endpoint_name := e.endpoint_name
    let path_key := if endpoint_name = service then service else service ++ "_" ++ endpoint_name
    let expected_status := success.status_code
    let test_name_suffix :=
      if endpoint_name = service then "default" else endpoint_name ++ "_default"
    let test_name_suffix :=
      if e.path_parameters ≠ [] ∧ endpoint_name ≠ service then endpoint_name ++ "_id_default"
      else test_name_suffix
    let test_name := "test_" ++ py_lower method ++ "_" ++ service ++ "_" ++ test_name_suffix
    let model_name := if endpoint_name = service then service else service ++ "_" ++ endpoint_name
    let validate_model :=
      "models." ++ py_lower title ++ ".validate." ++ py_lower method ++ "_" ++ model_name
        ++ "_validation_success"
    let headers := "models." ++ py_lower title ++ ".headers.auth"
    let dependency : Option String :=
      match lookupA maps service with
      | Option.some mp => if e.path ∈ mp.used_in then Option.some mp.source_test_name
                          else Option.none
      | Option.none => Option.none
    let data_type : Option String :=
      if e.request_body ∧ (method = "POST" ∨ method = "PUT") then
        Option.some ("models." ++ py_lower title ++ ".payload." ++ py_lower method ++ "_"
          ++ model_name ++ "_payload_default")
      else Option.none
    let dependency_line :=
      match dependency with
      | Option.some d => ", depends=[\x27" ++ d ++ "\x27], force=True"
      | Option.none => ""
    ["    @pytest.mark.dependency(name=\x27" ++ (test_name ++ "\x27" ++ dependency_line ++ ")"),
     "    async def " ++ (test_name ++ "(self, domain, api_client, models):")]
    ++ (if dependency.isSome then
          ["        add_url = f\x27\x7bself.__class__.resource_id\x7d\x27"] else [])
    ++ ["        response = await api_client.make_request(",
        "            \x27" ++ (method ++ "\x27,"),
        "            models." ++ (py_lower title ++ ".paths." ++ path_key ++ ","),
        "            headers=" ++ (headers ++ ",")]
    ++ (match data_type with
        | Option.some dt => ["            data_type=" ++ (dt ++ ",")]
        | Option.none => [])
    ++ (if dependency.isSome then ["            add_url1=add_url,"] else [])
    ++ ["            expected_status_code=" ++ (py_str_opt expected_status ++ ",")]
    ++ (if success_schema_type success ≠ Option.some "null" then
          ["            validate_model=" ++ validate_model] else [])
    ++ ["        )"]
    ++ (if expected_status = Option.some 201 ∧ (lookupA maps service).isSome then
          match lookupA maps service with
          | Option.some mp =>
            if mp.id_field = "response" then
              ["        assert response is not None",
               "        self.__class__.resource_id = response"]
            else
              ["        # Автоматически выбрано поле \x27" ++ (mp.id_field
                 ++ "\x27 для resource_id"),
               "        assert response is not None",
               "        self.__class__.resource_id = response[\x27" ++ (mp.id_field ++ "\x27]")]
          | Option.none => []
        else if expected_status = Option.some 204 then ["        assert response == \x27\x27"]
        else ["        assert response is not None"])
    ++ [""]

/-- models_tests.TestsContainer._generate_test_content, as the list of
lines the source joins with newlines. -/
def generate_test_content_lines (service : String) (endpoints : List Endpoint)
    (maps : List (String × IdMapping)) : List String :=
  let title := match endpoints with
    | [] => "common"
    | e :: _ => e.title
  (py_sort_endpoints endpoints).foldl
    (fun content e => content ++ method_lines service title maps e)
    (class_header_lines service title maps)

/-- models_tests.TestsContainer._generate_test_content. -/
def generate_test_content (service : String) (endpoints : List Endpoint)
    (maps : List (String × IdMapping)) : String :=
  join_lines (generate_test_content_lines service endpoints maps)

/-- models_tests.TestsContainer._generate_test_files. -/
def generate_test_files (groups : List (String × List Endpoint))
    (maps : List (String × IdMapping)) : List TestFile :=
  groups.map (fun g =>
    let title := match g.2 with
      | [] => "common"
      | e :: _ => e.title
    { name := title ++ "/" ++ g.1 ++ "/test_" ++ g.1 ++ "_default.py",
      content := generate_test_content g.1 g.2 maps })

/-- models_tests.TestsContainer._load_api_reference has no handler: a
load failure propagates out of the constructor. -/
def tests_load_api_reference (r : Except String Catalog) : Except String Catalog :=
  r

/-- The TestsContainer constructor pipeline: on a successful load it
groups the endpoints, runs the inference engine and emits every test
file; a load failure escapes with no output. -/
def tests_container_files (r : Except String Catalog) : Except String (List TestFile) :=
  match tests_load_api_reference r with
  | Except.error e => Except.error e
  | Except.ok cat =>
    let groups := get_endpoint_groups cat
    Except.ok (generate_test_files groups (predict_id_usage groups))

/-! ## models_validates.py: ValidationsContainer -/

/-- models_validates.ValidationsContainer._load_api_reference: a load
failure is logged and re-raised, wrapped in a new message. -/
def validates_load_api_reference (r : Except String Catalog) : Except String Catalog :=
  match r with
  | Except.ok d => Except.ok d
  | Except.error e => Except.error ("Failed to load api_reference.json: " ++ e)

/-- models_validates.ValidationsContainer._snake_to_camel. -/
def snake_to_camel (name : String) : String :=
  join_with "" ((split_on_char '_' name).map py_capitalize)

/-- models_validates.ValidationsContainer._generate_model_name.  The
schema argument of the source is unused; the name depends only on
is_success and the optional field name.  (A present empty field name is
falsy in Python; it yields the same name as an absent one because
snake_to_camel "" is "".) -/
def generate_model_name (field_name : Option String) (is_success : Bool := true) : String :=
  match is_success, field_name with
  | true, Option.some f => "ResponseSuccessBody" ++ snake_to_camel f
  | true, Option.none => "ResponseSuccessBody"
  | false, _ => "ResponseError"

def SProps.isNil : SProps → Bool
  | SProps.nil => true
  | SProps.cons _ _ _ => false

/-- models_validates.ValidationsContainer._get_pydantic_type.  For an
array whose items key is absent, the source recurses on the empty dict,
which yields "Any"; that call is inlined here. -/
def get_pydantic_type : Schema → Option String → String
  | Schema.mk ty _ props items _ _, field_name =>
    if ty = Option.some "string" then "str"
    else if ty = Option.some "integer" then "int"
    else if ty = Option.some "boolean" then "bool"
    else if ty = Option.some "array" then
      match items with
      | SItems.some item => "List[" ++ get_pydantic_type item field_name ++ "]"
      | SItems.none => "List[Any]"
    else if ty = Option.some "object" ∨ props.isNil = false then
      generate_model_name field_name true
    else "Any"

/-- The two lines of an empty (pass) Pydantic model; the source reaches
them for an empty schema or one with no properties and a non-array,
non-string type. -/
def empty_model_lines (model_name : String) (indent_str : String) : List String :=
  ["class " ++ model_name ++ "(BaseModelWithConfig):", indent_str ++ "pass"]

/-- Python "\n\n".join over blocks of lines: a blank line between
consecutive blocks. -/
def join_blocks : List (List String) → List String
  | [] => []
  | [b] => b
  | b :: rest => b ++ [""] ++ join_blocks rest

/-- The model lines of the string (RootModel) branch of
_generate_pydantic_model. -/
def string_model_lines (model_name : String) (indent_str : String) : List String :=
  ["class " ++ model_name ++ "(RootModel):", indent_str ++ "root: str = Field(...)"]

/-- Line assembly of the array branch of _generate_pydantic_model: the
recursively generated item block r goes above the class lines, separated
by a blank line when non-empty. -/
def assemble_array_model (model_name item_model_name indent_str : String)
    (r : List String × List String) : List String × List String :=
  let lines := ["class " ++ model_name ++ "(BaseModelWithConfig):",
                indent_str ++ "items: List[" ++ item_model_name ++ "] = Field(...)"]
  (if r.1 ≠ [] then r.1 ++ [""] ++ lines else lines, r.2)

/-- The items-absent case of the array branch of _generate_pydantic_model:
the source recurses on the empty dict, which amounts to the membership
test followed by the empty pass model; that call is inlined here. -/
def array_items_absent (item_model_name indent_str : String) (gen2 : List String) :
    List String × List String :=
  if item_model_name ∈ gen2 then ([], gen2)
  else (empty_model_lines item_model_name indent_str, gen2 ++ [item_model_name])

/-- Line assembly of the object branch of _generate_pydantic_model from
the result of the property loop: nested model blocks above the class
lines, joined by blank lines. -/
def assemble_object_model (model_name : String)
    (r : List String × List (List String) × List String) : List String × List String :=
  let lines := ("class " ++ model_name ++ "(BaseModelWithConfig):") :: r.1
  (if r.2.1 ≠ [] then join_blocks (r.2.1 ++ [lines]) else lines, r.2.2)

/-- The field line of one property of _generate_pydantic_model and the
assembly of the loop result (field lines, nested blocks, updated set). -/
def assemble_field (prop_name : String) (prop_schema : Schema) (required : List String)
    (indent_str : String) (nested : List String × List String)
    (r : List String × List (List String) × List String) :
    List String × List (List String) × List String :=
  let prop_type := get_pydantic_type prop_schema (Option.some prop_name)
  let is_required := prop_name ∈ required ∨ prop_schema.nullable = Option.some false
  let dflt := if is_required then "..." else "None"
  let field_line := indent_str ++ prop_name ++ ": " ++ prop_type ++ " = Field(" ++ dflt ++ ")"
  (field_line :: r.1,
   (if nested.1 ≠ [] then [nested.1] else []) ++ r.2.1,
   r.2.2)

mutual
/-- models_validates.ValidationsContainer._generate_pydantic_model,
returning the emitted lines (the source returns their newline join) and
the updated generated-model-name set (the source mutates a Python set;
the model keeps insertion order).  Source guard: `not schema or (not
properties and type not in ["array", "string"])`; for any dict the first
disjunct implies the second, so the guard is equivalent to: no
properties, and type neither array nor string. -/
def generate_pydantic_model (schema : Schema) (model_name : String)
    (field_name : Option String) (indent : Nat) (generated_models : List String) :
    List String × List String :=
  if model_name ∈ generated_models then ([], generated_models)
  else
    let gen2 := generated_models ++ [model_name]
    let indent_str := String.mk (List.replicate indent ' ')
    match schema with
    | Schema.mk ty _ props items required _ =>
      if props.isNil ∧ ty ≠ Option.some "array" ∧ ty ≠ Option.some "string" then
        (empty_model_lines model_name indent_str, gen2)
      else if ty = Option.some "string" then
        (string_model_lines model_name indent_str, gen2)
      else if ty = Option.some "array" then
        let item_model_name :=
          generate_model_name (Option.some (py_or_str field_name "items")) true
        assemble_array_model model_name item_model_name indent_str
          (match items with
           | SItems.some item_schema =>
             generate_pydantic_model item_schema item_model_name field_name indent gen2
           | SItems.none => array_items_absent item_model_name indent_str gen2)
      else
        assemble_object_model model_name
          (generate_pydantic_fields props required indent indent_str gen2)
termination_by structural schema

/-- The property loop of _generate_pydantic_model: returns the field
lines, the nested model blocks (in emission order), and the updated
generated-model-name set. -/
def generate_pydantic_fields (props : SProps) (required : List String) (indent : Nat)
    (indent_str : String) (generated_models : List String) :
    List String × List (List String) × List String :=
  match props with
  | SProps.nil => ([], [], generated_models)
  | SProps.cons prop_name prop_schema rest =>
    let nested : List String × List String :=
      if prop_schema.type = Option.some "object" ∨ prop_schema.properties.isNil = false then
        generate_pydantic_model prop_schema (generate_model_name (Option.some prop_name) true)
          (Option.some prop_name) indent generated_models
      else
        match prop_schema with
        | Schema.mk _ _ _ (SItems.some item_schema) _ _ =>
          if prop_schema.type = Option.some "array" ∧
              (item_schema.type = Option.some "object" ∨
               item_schema.properties.isNil = false) then
            generate_pydantic_model item_schema (generate_model_name (Option.some prop_name) true)
              (Option.some prop_name) indent generated_models
          else ([], generated_models)
        | Schema.mk _ _ _ SItems.none _ _ => ([], generated_models)
    assemble_field prop_name prop_schema required indent_str nested
      (generate_pydantic_fields rest required indent indent_str nested.2)
termination_by structural props
end

/-! ## models_endpoints.py: EndpointsContainer -/

/-- models_endpoints.EndpointsContainer._load_api_reference: unlike the
other containers, a load failure is printed and swallowed, and the
container continues with an empty catalog. -/
def endpoints_load_api_reference (r : Except String Catalog) : Catalog :=
  match r with
  | Except.ok d => d
  | Except.error _ => []

/-- The name cleanup used in models_endpoints.py (lines 80 and 165):
remove braces, replace dash and dot with underscore (no space
handling). -/
def clean_name_ep (s : String) : String :=
  replace_ch '.' '_' (replace_ch '-' '_' (remove_ch '}' (remove_ch '{' s)))

/-- The unique-path collection of _generate_paths_content, in insertion
order. -/
def collect_unique_paths (cat : Catalog) : List String :=
  cat.foldl (fun acc kv =>
    let path := kv.2.path.getD ""
    if path ≠ "" ∧ path ∉ acc then acc ++ [path] else acc) []

/-- The per-path grouping of _generate_paths_content:
service class name → (endpoint attribute name → cleaned path). -/
def paths_services (unique_paths : List String) : List (String × List (String × String)) :=
  unique_paths.foldl (fun services path =>
    if ¬ starts_with "/" path = true then services
    else
      let parts := split_on_char '/' (strip_slash path)
      if parts.isEmpty then services   -- dead branch: splitOn is never empty
      else
        let su : String × List String :=
          match parts with
          | "users" :: "profile" :: restp => ("UsersProfile", restp)
          | p0 :: restp => (py_capitalize p0, restp)
          | [] => ("", [])
        let endpoint_name0 := if su.2 ≠ [] then join_with "_" su.2 else "root"
        let en1 := clean_name_ep endpoint_name0
        let endpoint_name := if en1 = "" then "root" else en1
        let clean_parts := parts.filter (fun p => !(starts_with "\x7b" p && ends_with "\x7d" p))
        let clean_path0 := join_with "/" clean_parts
        let has_dynamic := parts.length > (split_on_char '/' clean_path0).length
        let clean_path := if has_dynamic then "/" ++ clean_path0 ++ "/" else "/" ++ clean_path0
        match lookupA services su.1 with
        | Option.some eps => set_assoc services su.1 (set_assoc eps endpoint_name clean_path)
        | Option.none => services ++ [(su.1, [(endpoint_name, clean_path)])]) []

/-- models_endpoints.EndpointsContainer._generate_paths_content, as a
list of lines. -/
def generate_paths_content_lines (cat : Catalog) : List String :=
  let services := paths_services (collect_unique_paths cat)
  let header := ["from dataclasses import dataclass", "from typing import Optional", "",
                 "API_PREFIX = \"/api/v1/pages\"", "", "@dataclass", "class Paths:"]
  let body := services.foldl (fun content svc =>
    let service_name := svc.1
    let svc_lower_path :=
      if service_name = "UsersProfile" then "users/profile" else py_lower service_name
    let service_pre := "\x7bAPI_PREFIX\x7d/" ++ svc_lower_path
    let content := content ++
      ["    class " ++ service_name ++ ":",
       "        prefix = f\"" ++ service_pre ++ "\""]
    let content := svc.2.foldl (fun content ep =>
      let endpoint_name := ep.1
      let path := ep.2
      if endpoint_name = "root" ∧ strip_slash path = svc_lower_path then content
      else
        let relative_path := strip_slash (string_drop path ("/" ++ svc_lower_path).length)
        if ends_with "_id" endpoint_name || ends_with "_filter" endpoint_name then
          content ++ ["        " ++ endpoint_name ++ " = f\"\x7bprefix\x7d/"
            ++ relative_path ++ "/\""]
        else
          content ++ ["        " ++ endpoint_name ++ " = f\"\x7bprefix\x7d/"
            ++ relative_path ++ "\""]) content
    content ++ [""]) header
  body ++
    ["    def get_path(self, service: str, endpoint: str) -> Optional[str]:",
     "        svc = getattr(self, service, None)",
     "        if svc:",
     "            return getattr(svc, endpoint, None)",
     "        return None",
     ""]

/-- models_endpoints.EndpointsContainer._generate_paths_content. -/
def generate_paths_content (cat : Catalog) : String :=
  join_lines (generate_paths_content_lines cat)

/-- One value of a header_config / param_config dict in
_generate_config_content. -/
inductive CfgVal : Type where
  | values (vs : List JVal)
  | fixed (v : JVal)
  | generator (g : String)
deriving DecidableEq

/-- Python repr of one config value dict. -/
def py_repr_cfg : CfgVal → String
  | CfgVal.values vs => "\x7b\x27values\x27: " ++ py_repr_list vs ++ "\x7d"
  | CfgVal.fixed v => "\x7b\x27fixed_value\x27: " ++ py_repr v ++ "\x7d"
  | CfgVal.generator g => "\x7b\x27generator\x27: \x27" ++ g ++ "\x27\x7d"

/-- Python repr of a name-keyed config dict. -/
def py_repr_cfg_dict (d : List (String × CfgVal)) : String :=
  "\x7b" ++ join_with ", "
    (d.map (fun kv => "\x27" ++ kv.1 ++ "\x27: " ++ py_repr_cfg kv.2)) ++ "\x7d"

/-- The per-endpoint record stored in the services dict of
_generate_config_content. -/
structure EpConfig where
  headers : List String
  params : List String
  header_config : List (String × CfgVal)
  param_config : List (String × CfgVal)

/-- The accumulating state of _generate_config_content: the services
dict plus the two global generator tables. -/
structure ConfigState where
  services : List (String × List (String × EpConfig))
  header_generators : List (String × String)
  param_generators : List (String × String)

/-- Python `if name not in generators: generators[name] = v`. -/
def add_generator (gens : List (String × String)) (name v : String) :
    List (String × String) :=
  if (lookupA gens name).isSome then gens else gens ++ [(name, v)]

/-- A truthy enum value (Python `if enum:`; an empty list is falsy). -/
def truthy_enum (o : Option (List JVal)) : Option (List JVal) :=
  match o with
  | Option.some vs => if vs.isEmpty then Option.none else Option.some vs
  | Option.none => Option.none

/-- The header-parameter loop body of _generate_config_content. -/
def config_header_step (acc : List (String × CfgVal) × List (String × String))
    (p : Param) : List (String × CfgVal) × List (String × String) :=
  if p.type = "header" then
    match truthy_enum p.schema.enum with
    | Option.some vs =>
      (set_assoc acc.1 p.name (CfgVal.values vs),
       add_generator acc.2 p.name ("lambda: random.choice(" ++ py_repr_list vs ++ ")"))
    | Option.none =>
      match p.schema.example_ with
      | Option.some ex =>
        (set_assoc acc.1 p.name (CfgVal.fixed ex),
         add_generator acc.2 p.name ("lambda: " ++ json_dumps ex))
      | Option.none =>
        if p.schema.type = Option.some "string" then
          (set_assoc acc.1 p.name (CfgVal.fixed (JVal.s "default")),
           add_generator acc.2 p.name "lambda: \"default\"")
        else
          (set_assoc acc.1 p.name (CfgVal.fixed (JVal.s "default")),
           add_generator acc.2 p.name "lambda: \"default\"")
  else acc

/-- The query-parameter loop body of _generate_config_content. -/
def config_query_step (acc : List (String × CfgVal) × List (String × String))
    (p : Param) : List (String × CfgVal) × List (String × String) :=
  if p.type = "query" then
    match truthy_enum p.schema.enum with
    | Option.some vs =>
      (set_assoc acc.1 p.name (CfgVal.values vs),
       add_generator acc.2 p.name ("lambda: random.choice(" ++ py_repr_list vs ++ ")"))
    | Option.none =>
      match p.schema.example_ with
      | Option.some ex =>
        (set_assoc acc.1 p.name (CfgVal.fixed ex),
         add_generator acc.2 p.name ("lambda: " ++ json_dumps ex))
      | Option.none =>
        if p.schema.format = Option.some "uuid" then
          (set_assoc acc.1 p.name (CfgVal.generator "self._faker.uuid4"),
           add_generator acc.2 p.name "lambda: self._faker.uuid4()")
        else if p.schema.type = Option.some "string" then
          (set_assoc acc.1 p.name (CfgVal.fixed (JVal.s "default")),
           add_generator acc.2 p.name "lambda: \"default\"")
        else if p.schema.type = Option.some "integer" then
          (set_assoc acc.1 p.name (CfgVal.generator "random.randint(1, 100)"),
           add_generator acc.2 p.name "lambda: random.randint(1, 100)")
        else
          (set_assoc acc.1 p.name (CfgVal.fixed (JVal.s "default")),
           add_generator acc.2 p.name "lambda: \"default\"")
  else acc

/-- The per-catalog-entry body of _generate_config_content. -/
def config_entry_step (st : ConfigState) (kv : String × RawEndpoint) : ConfigState :=
  let path := kv.2.path.getD ""
  if ¬ starts_with "/" path = true then st
  else
    let parts := split_on_char '/' (strip_slash path)
    if parts.isEmpty then st   -- dead branch: splitOn is never empty
    else
      let su : String × List String :=
        match parts with
        | "users" :: "profile" :: restp => ("users_profile", restp)
        | p0 :: restp => (p0, restp)
        | [] => ("", [])
      let endpoint_name0 := if su.2 ≠ [] then join_with "_" su.2 else "root"
      let en1 := clean_name_ep endpoint_name0
      let endpoint_name := if en1 = "" then "root" else en1
      let services :=
        if (lookupA st.services su.1).isSome then st.services else st.services ++ [(su.1, [])]
      let headers := (kv.2.parameters.filter (fun p => p.type == "header")).map (fun p => p.name)
      let params := (kv.2.parameters.filter (fun p => p.type == "query")).map (fun p => p.name)
      let hstep := kv.2.parameters.foldl config_header_step ([], st.header_generators)
      let qstep := kv.2.parameters.foldl config_query_step ([], st.param_generators)
      let svc_endpoints := (lookupA services su.1).getD []
      let new_endpoints :=
        match lookupA svc_endpoints endpoint_name with
        | Option.some cfg =>
          set_assoc svc_endpoints endpoint_name
            { headers := cfg.headers ++ headers,
              params := cfg.params ++ params,
              header_config := hstep.1.foldl (fun d e => set_assoc d e.1 e.2) cfg.header_config,
              param_config := qstep.1.foldl (fun d e => set_assoc d e.1 e.2) cfg.param_config }
        | Option.none =>
          svc_endpoints ++ [(endpoint_name,
            { headers := headers, params := params,
              header_config := hstep.1, param_config := qstep.1 })]
      { services := set_assoc services su.1 new_endpoints,
        header_generators := hstep.2,
        param_generators := qstep.2 }

/-- The duplicate-removal pass of _generate_config_content
(list(set(...)) on the header and param name lists, in insertion
order). -/
def config_dedupe (services : List (String × List (String × EpConfig))) :
    List (String × List (String × EpConfig)) :=
  services.map (fun s => (s.1, s.2.map (fun e =>
    (e.1, { e.2 with headers := ordered_dedup e.2.headers,
                     params := ordered_dedup e.2.params }))))

/-- The initial header_generators table of _generate_config_content. -/
def initial_header_generators : List (String × String) :=
  [("User-Agent", "lambda: self._ua.random"),
   ("Accept", "lambda: \"application/json\""),
   ("Content-Type", "lambda: \"application/json\""),
   ("X-Request-ID", "lambda: self._faker.uuid4()"),
   ("Authorization", "lambda token: f\"Bearer \x7btoken\x7d\""),
   ("X-Client", "lambda: self._faker.uuid4()"),
   ("X-API-Version", "lambda: f\"\x7brandom.randint(1, 5)\x7d.\x7brandom.randint(0, 9)\x7d\"")]

/-- The initial param_generators table of _generate_config_content. -/
def initial_param_generators : List (String × String) :=
  [("offset", "lambda: random.randint(0, 1000)"),
   ("limit", "lambda: random.randint(1, 1000)")]

/-- models_endpoints.EndpointsContainer._generate_config_content, as a
list of lines. -/
def generate_config_content_lines (cat : Catalog) : List String :=
  let st := cat.foldl config_entry_step
    { services := [], header_generators := initial_header_generators,
      param_generators := initial_param_generators }
  let services := config_dedupe st.services
  ["from dataclasses import dataclass",
   "from typing import Dict, List, Callable",
   "from faker import Faker",
   "from fake_useragent import UserAgent",
   "import random",
   "",
   "@dataclass",
   "class Endpoint:",
   "    headers: List[str] = None",
   "    params: List[str] = None",
   "    header_config: Dict[str, dict] = None",
   "    param_config: Dict[str, dict] = None",
   "",
   "    def __post_init__(self):",
   "        self.headers = self.headers or []",
   "        self.header_config = self.header_config or \x7b\x7d",
   "        self.params = self.params or []",
   "        self.param_config = self.param_config or \x7b\x7d",
   "",
   "@dataclass",
   "class Service:",
   "    endpoints: Dict[str, Endpoint] = None",
   "",
   "    def __post_init__(self):",
   "        self.endpoints = self.endpoints or \x7b\x7d",
   "",
   "@dataclass",
   "class EndpointConfig:",
   "    services: Dict[str, Service] = None",
   "    header_generators: Dict[str, Callable] = None",
   "    param_generators: Dict[str, Callable] = None",
   "",
   "    def __post_init__(self):",
   "        self.services = self.services or \x7b\x7d",
   "        self._faker = Faker(locale=\"ru_RU\")",
   "        self._ua = UserAgent()",
   "",
   "        self.header_generators = self.header_generators or \x7b"]
  ++ st.header_generators.map (fun kv => "            \"" ++ kv.1 ++ "\": " ++ kv.2 ++ ",")
  ++ ["        \x7d",
      "",
      "        self.param_generators = self.param_generators or \x7b"]
  ++ st.param_generators.map (fun kv => "            \"" ++ kv.1 ++ "\": " ++ kv.2 ++ ",")
  ++ ["        \x7d",
      "",
      "    def get_endpoint_config(self, service: str, endpoint: str) -> Endpoint:",
      "        svc = self.services.get(service, None)",
      "        if svc is None or endpoint not in svc.endpoints:",
      "            raise ValueError(f\"Конфигурация для \x7bservice\x7d/\x7bendpoint\x7d не найдена\")",
      "        return svc.endpoints[endpoint]",
      "",
      "config = EndpointConfig(",
      "    services=\x7b"]
  ++ services.foldl (fun acc s =>
      let inner := s.2.foldl (fun acc2 e =>
        acc2 ++
          ["                \"" ++ e.1 ++ "\": Endpoint(",
           "                    headers=" ++ py_repr_str_list e.2.headers ++ ",",
           "                    header_config=" ++ py_repr_cfg_dict e.2.header_config ++ ",",
           "                    params=" ++ py_repr_str_list e.2.params ++ ",",
           "                    param_config=" ++ py_repr_cfg_dict e.2.param_config,
           "                ),"]) []
      acc ++ ["        \"" ++ s.1 ++ "\": Service(",
              "            endpoints=\x7b"]
          ++ inner
          ++ ["            \x7d",
              "        ),"]) []
  ++ ["    \x7d", ")"]

/-- models_endpoints.EndpointsContainer._generate_config_content. -/
def generate_config_content (cat : Catalog) : String :=
  join_lines (generate_config_content_lines cat)

/-- models_endpoints.EndpointsContainer._generate_endpoint_files. -/
def generate_endpoint_files (cat : Catalog) : List EndpointFile :=
  [{ name := "paths.py", content := generate_paths_content cat },
   { name := "configs.py", content := generate_config_content cat }]

/-- The EndpointsContainer state after construction. -/
structure EndpointsContainer where
  api_reference : Catalog
  files : List EndpointFile

/-- The EndpointsContainer constructor pipeline: load (swallowing any
failure), then generate both files unconditionally. -/
def endpoints_container_init (r : Except String Catalog) : EndpointsContainer :=
  let api := endpoints_load_api_reference r
  { api_reference := api, files := generate_endpoint_files api }

/-! ## Observation functions used by the claims -/

/-- The endpoint has a success (2xx) response, so the emitter produces a
test method for it. -/
def has_success (e : Endpoint) : Bool :=
  (first_success e.responses).isSome

/-- A line opening a generated test method. -/
def is_async_line (l : String) : Bool :=
  "    async def ".data.isPrefixOf l.data

/-- A line assigning the shared class-level resource_id slot. -/
def is_resource_assign_line (l : String) : Bool :=
  "        self.__class__.resource_id = ".data.isPrefixOf l.data

/-- A line opening a class declaration at top level of a generated
file. -/
def is_class_line (l : String) : Bool :=
  "class ".data.isPrefixOf l.data

/-- The header line of a generated Pydantic model named n (object/empty
form). -/
def model_header_base (n : String) : String :=
  "class " ++ n ++ "(BaseModelWithConfig):"

/-- The header line of a generated Pydantic root model named n (string
form). -/
def model_header_root (n : String) : String :=
  "class " ++ n ++ "(RootModel):"

/-- How many class declarations named n the emitted lines contain. -/
def count_header (n : String) (lines : List String) : Nat :=
  lines.countP (fun l => l == model_header_base n || l == model_header_root n)

/-- A POST that the first loop of _predict_id_usage records a mapping
for: a "200" or "201" response key and an inferred identifier field. -/
def qualifies_id_source (groups : List (String × List Endpoint)) (s : String)
    (e : Endpoint) : Bool :=
  e.method == "POST" &&
    (responses_have_code e.responses "200" || responses_have_code e.responses "201") &&
    (find_resource_id_field groups s e.responses).isSome

/-- The mapping the first loop of _predict_id_usage would record for an
endpoint, when its field inference succeeds. -/
def mapping_of (groups : List (String × List Endpoint)) (s : String) (e : Endpoint) :
    Option IdMapping :=
  (find_resource_id_field groups s e.responses).map (mk_id_mapping s e)

/-- The paths the second loop of _predict_id_usage appends for one
endpoint: its path once per matching path parameter. -/
def matching_paths (id_field : String) (e : Endpoint) : List String :=
  if e.method ∈ ["GET", "PUT", "DELETE", "PATCH"] then
    (e.parameters.filter
      (fun p => p.type == "path" && (p.name == id_field || contains_id_ci p.name))).map
      (fun _ => e.path)
  else []

/-! ## Concrete inputs used by witnesses and counterexamples -/

/-- An object response schema carrying a uuid property addressId. -/
def schema_address : Schema :=
  Schema.obj [("addressId", Schema.scalar "string" (Option.some "uuid"))]

/-- A service whose POST returns an object with an addressId property
and whose GET consumes path parameter addressId. -/
def cat_addresses : Catalog :=
  [("POST /addresses",
    { method := Option.some "post",
      responses := [("201", { status_code := Option.some 201,
                              schema := Option.some schema_address })] }),
   ("GET /addresses/\x7baddressId\x7d",
    { method := Option.some "get",
      parameters := [{ name := "addressId", type := "path" }],
      responses := [("200", { status_code := Option.some 200,
                              schema := Option.some schema_address })] })]

/-- An object response schema carrying a uuid property widgetId. -/
def schema_widget : Schema :=
  Schema.obj [("widgetId", Schema.scalar "string" (Option.some "uuid"))]

/-- A service with two qualifying identifier-source POSTs. -/
def cat_widgets : Catalog :=
  [("POST /widgets",
    { method := Option.some "post",
      responses := [("201", { status_code := Option.some 201,
                              schema := Option.some schema_widget })] }),
   ("POST /widgets/extra",
    { method := Option.some "post",
      responses := [("200", { status_code := Option.some 200,
                              schema := Option.some schema_widget })] }),
   ("GET /widgets/\x7bwidgetId\x7d",
    { method := Option.some "get",
      parameters := [{ name := "widgetId", type := "path" }],
      responses := [("200", { status_code := Option.some 200,
                              schema := Option.some schema_widget })] })]

/-- A service whose POST creates (201) and whose PUT also answers 201:
both emitted test methods capture into resource_id. -/
def cat_items : Catalog :=
  [("POST /items",
    { method := Option.some "post",
      responses := [("201",
        { status_code := Option.some 201,
          schema := Option.some (Schema.obj [("itemId", Schema.scalar "string"
            (Option.some "uuid"))]) })] }),
   ("PUT /items/\x7bitemId\x7d",
    { method := Option.some "put",
      parameters := [{ name := "itemId", type := "path" }],
      responses := [("201",
        { status_code := Option.some 201,
          schema := Option.some (Schema.obj [("ok", Schema.scalar "string")]) })] })]

/-- A service with one endpoint lacking any 2xx response (no test
method is emitted for it) and one POST with a 201 response. -/
def cat_w : Catalog :=
  [("GET /w",
    { method := Option.some "get",
      responses := [("404", { status_code := Option.some 404 })] }),
   ("POST /w",
    { method := Option.some "post",
      responses := [("201",
        { status_code := Option.some 201,
          schema := Option.some (Schema.obj [("x", Schema.scalar "string")]) })] })]

/-- One endpoint under the users/profile path. -/
def cat_profile : Catalog :=
  [("GET /users/profile/settings",
    { path := Option.some "/users/profile/settings",
      method := Option.some "get",
      responses := [("200", { status_code := Option.some 200 })] })]

/-- A nested object sub-schema. -/
def schema_sub : Schema :=
  Schema.obj [("x", Schema.scalar "string")]

/-- An object schema with two structurally identical sub-object
properties under different names. -/
def schema_siblings : Schema :=
  Schema.obj [("a", schema_sub), ("b", schema_sub)]

/-- A service whose GET has two path parameters that both match the
inferred identifier field heuristic. -/
def cat_things : Catalog :=
  [("POST /things",
    { method := Option.some "post",
      responses := [("201",
        { status_code := Option.some 201,
          schema := Option.some (Schema.obj [("thingId", Schema.scalar "string"
            (Option.some "uuid"))]) })] }),
   ("GET /things/\x7bthingId\x7d/\x7bsubId\x7d",
    { method := Option.some "get",
      parameters := [{ name := "thingId", type := "path" },
                     { name := "subId", type := "path" }],
      responses := [("200",
        { status_code := Option.some 200,
          schema := Option.some (Schema.obj [("x", Schema.scalar "string")]) })] })]

/-- A bare-uuid text/plain creation response. -/
def responses_uuid_plain : List (String × Response) :=
  [("201", { status_code := Option.some 201,
             schema := Option.some (Schema.scalar "string" (Option.some "uuid")),
             content_type := Option.some "text/plain" })]

/-- A bare string creation response without the uuid/text-plain
specialization. -/
def responses_plain_string : List (String × Response) :=
  [("201", { status_code := Option.some 201,
             schema := Option.some (Schema.scalar "string") })]

/-! ## Basic lemmas about the dict and set models -/

theorem lookupA_set_assoc_self {α : Type} (m : List (String × α)) (k : String) (v : α) :
    lookupA (set_assoc m k v) k = Option.some v := by
  induction m with
  | nil => simp [set_assoc, lookupA]
  | cons kv rest ih =>
    by_cases h : kv.1 = k
    · simp [set_assoc, h, lookupA]
    · simp [set_assoc, h, lookupA, ih]

theorem lookupA_set_assoc_other {α : Type} (m : List (String × α)) (k k2 : String) (v : α)
    (h : k2 ≠ k) : lookupA (set_assoc m k v) k2 = lookupA m k2 := by
  induction m with
  | nil =>
    simp only [set_assoc, lookupA]
    rw [if_neg (fun hh : k = k2 => h hh.symm)]
  | cons kv rest ih =>
    by_cases hk : kv.1 = k
    · simp only [set_assoc, if_pos hk, lookupA]
      by_cases hk2 : kv.1 = k2
      · exact absurd (hk2.symm.trans hk) h
      · simp [hk2]
    · simp only [set_assoc, if_neg hk, lookupA]
      by_cases hk2 : kv.1 = k2
      · simp [hk2]
      · simp [hk2, ih]

theorem set_assoc_idem {α : Type} (m : List (String × α)) (k : String) (v : α) :
    set_assoc (set_assoc m k v) k v = set_assoc m k v := by
  induction m with
  | nil => simp [set_assoc]
  | cons kv rest ih =>
    by_cases h : kv.1 = k
    · simp [set_assoc, h]
    · simp [set_assoc, h, ih]

theorem lookupA_append_used_in (m : List (String × IdMapping)) (s k : String) (p : String) :
    lookupA (append_used_in m s p) k =
      if k = s then
        (lookupA m k).map (fun mp => { mp with used_in := mp.used_in ++ [p] })
      else lookupA m k := by
  induction m with
  | nil => by_cases h : k = s <;> simp [append_used_in, lookupA, h]
  | cons kv rest ih =>
    simp only [append_used_in, List.map_cons] at ih ⊢
    by_cases hs : kv.1 = s
    · by_cases hk : kv.1 = k
      · have hks : k = s := hk.symm.trans hs
        simp [lookupA, hk, hs, hks]
      · have hsk : ¬ s = k := fun hh => hk (hs.trans hh)
        simp [lookupA, hk, hs, hsk, ih]
    · by_cases hk : kv.1 = k
      · have hks : ¬ k = s := fun hh => hs (hk.trans hh)
        simp [lookupA, hk, hs, hks]
      · simp [lookupA, hk, hs, ih]

/-! ## C9: idempotence of the name sanitizer -/

theorem clean_name_data (s : String) :
    (clean_name s).data = s.data.filterMap (fun c =>
      if c = '{' ∨ c = '}' then Option.none
      else Option.some (if c = '-' ∨ c = '.' ∨ c = ' ' then '_' else c)) := by
  show ((((s.data.filter (fun x => x != '{')).filter (fun x => x != '}')).map
      (fun x => if x = '-' then '_' else x)).map
      (fun x => if x = '.' then '_' else x)).map
      (fun x => if x = ' ' then '_' else x) = _
  induction s.data with
  | nil => rfl
  | cons c l ih =>
    simp only [List.map_map, List.filter_filter] at ih
    by_cases h1 : c = '{'
    · simp [h1, List.filter_cons, List.filterMap_cons, ih]
    · by_cases h2 : c = '}'
      · simp [h1, h2, List.filter_cons, List.filterMap_cons, ih]
      · by_cases h3 : c = '-'
        · simp [h1, h2, h3, List.filter_cons, List.filterMap_cons, ih]
        · by_cases h4 : c = '.'
          · simp [h1, h2, h3, h4, List.filter_cons, List.filterMap_cons, ih]
          · by_cases h5 : c = ' '
            · simp [h1, h2, h3, h4, h5, List.filter_cons, List.filterMap_cons, ih]
            · simp [h1, h2, h3, h4, h5, List.filter_cons, List.filterMap_cons, ih]

/-- Claim C9: the identifier sanitizer _clean_name (drop braces, map
dash, dot and space to underscore) is idempotent: applying it to its own
output returns that output unchanged. -/
theorem clean_name_idempotent (s : String) : clean_name (clean_name s) = clean_name s := by
  apply String.ext
  rw [clean_name_data, clean_name_data, List.filterMap_filterMap]
  congr 1
  funext c
  by_cases h1 : c = '{'
  · simp [h1]
  · by_cases h2 : c = '}'
    · simp [h1, h2]
    · by_cases h3 : c = '-'
      · simp [h1, h2, h3]
      · by_cases h4 : c = '.'
        · simp [h1, h2, h3, h4]
        · by_cases h5 : c = ' '
          · simp [h1, h2, h3, h4, h5]
          · simp [h1, h2, h3, h4, h5]

/-! ## Characterization of the inference engine (phase 1) -/

theorem predict_phase1_endpoint_eq (groups : List (String × List Endpoint)) (s : String)
    (maps : List (String × IdMapping)) (e : Endpoint) :
    predict_phase1_endpoint groups s maps e =
      match find_resource_id_field groups s e.responses with
      | Option.some f =>
        if e.method = "POST" ∧
            (responses_have_code e.responses "200" = true ∨
             responses_have_code e.responses "201" = true) then
          set_assoc maps s (mk_id_mapping s e f)
        else maps
      | Option.none => maps := by
  unfold predict_phase1_endpoint
  by_cases hm : e.method = "POST"
  · simp only [if_pos hm, List.foldl]
    cases hfind : find_resource_id_field groups s e.responses with
    | none =>
      by_cases h200 : responses_have_code e.responses "200" <;>
        by_cases h201 : responses_have_code e.responses "201" <;>
          simp [h200, h201, hfind, hm]
    | some f =>
      by_cases h200 : responses_have_code e.responses "200" <;>
        by_cases h201 : responses_have_code e.responses "201" <;>
          simp [h200, h201, hfind, hm, set_assoc_idem]
  · cases hfind : find_resource_id_field groups s e.responses <;>
      simp [if_neg hm, List.foldl, hfind, hm]

theorem predict_phase1_endpoint_other (groups : List (String × List Endpoint)) (s1 s : String)
    (h : s ≠ s1) (maps : List (String × IdMapping)) (e : Endpoint) :
    lookupA (predict_phase1_endpoint groups s1 maps e) s = lookupA maps s := by
  rw [predict_phase1_endpoint_eq]
  cases hfind : find_resource_id_field groups s1 e.responses with
  | none => rfl
  | some f =>
    by_cases hc : e.method = "POST" ∧
        (responses_have_code e.responses "200" = true ∨
         responses_have_code e.responses "201" = true)
    · simp only [if_pos hc]
      exact lookupA_set_assoc_other _ _ _ _ h
    · simp only [if_neg hc]

theorem predict_phase1_fold_other (groups : List (String × List Endpoint)) (s1 s : String)
    (h : s ≠ s1) (es : List Endpoint) (maps : List (String × IdMapping)) :
    lookupA (es.foldl (predict_phase1_endpoint groups s1) maps) s = lookupA maps s := by
  induction es generalizing maps with
  | nil => rfl
  | cons e rest ih =>
    rw [List.foldl_cons, ih, predict_phase1_endpoint_other groups s1 s h]

theorem predict_phase1_fold (groups : List (String × List Endpoint)) (s : String)
    (es : List Endpoint) (maps : List (String × IdMapping)) :
    lookupA (es.foldl (predict_phase1_endpoint groups s) maps) s =
      match (es.filter (qualifies_id_source groups s)).getLast? with
      | Option.some e => mapping_of groups s e
      | Option.none => lookupA maps s := by
  induction es generalizing maps with
  | nil => rfl
  | cons e rest ih =>
    rw [List.foldl_cons, List.filter_cons]
    by_cases hq : qualifies_id_source groups s e = true
    · simp only [qualifies_id_source, Bool.and_eq_true, Bool.or_eq_true, beq_iff_eq,
        Option.isSome_iff_exists] at hq
      obtain ⟨⟨hm, hcodes⟩, f, hf⟩ := hq
      have hstep : predict_phase1_endpoint groups s maps e =
          set_assoc maps s (mk_id_mapping s e f) := by
        simp only [predict_phase1_endpoint_eq, hf]
        rw [if_pos ⟨hm, hcodes⟩]
      rw [hstep, ih]
      rw [if_pos (by simp [qualifies_id_source, hm, hcodes, hf])]
      cases hrest : (rest.filter (qualifies_id_source groups s)).getLast? with
      | some e2 =>
        have : rest.filter (qualifies_id_source groups s) ≠ [] := by
          intro hnil; rw [hnil] at hrest; exact Option.noConfusion hrest
        cases hl : rest.filter (qualifies_id_source groups s) with
        | nil => exact absurd hl this
        | cons b l2 =>
          rw [hl] at hrest
          simp only [List.getLast?_cons_cons, hrest]
      | none =>
        have hnil : rest.filter (qualifies_id_source groups s) = [] := by
          cases hl : rest.filter (qualifies_id_source groups s) with
          | nil => rfl
          | cons b l2 =>
            rw [hl] at hrest
            rw [List.getLast?_eq_getLast _ (by simp)] at hrest
            exact Option.noConfusion hrest
        rw [hnil]
        simp only [List.getLast?_singleton]
        rw [lookupA_set_assoc_self]
        simp [mapping_of, hf]
    · have hstep : predict_phase1_endpoint groups s maps e = maps := by
        cases hfind : find_resource_id_field groups s e.responses with
        | none => simp only [predict_phase1_endpoint_eq, hfind]
        | some f =>
          simp only [predict_phase1_endpoint_eq, hfind]
          rw [if_neg]
          intro hc
          exact hq (by simp [qualifies_id_source, hc.1, hc.2, hfind])
      rw [hstep, if_neg (by simpa using hq), ih]

theorem predict_phase1_groups_other (groups gs : List (String × List Endpoint)) (s : String)
    (h : ∀ g ∈ gs, g.1 ≠ s) (maps : List (String × IdMapping)) :
    lookupA (gs.foldl (fun m g => g.2.foldl (predict_phase1_endpoint groups g.1) m) maps) s =
      lookupA maps s := by
  induction gs generalizing maps with
  | nil => rfl
  | cons g rest ih =>
    have h2 : ∀ g2 ∈ rest, g2.1 ≠ s := fun g2 hg2 => h g2 (List.mem_cons_of_mem g hg2)
    rw [List.foldl_cons, ih h2]
    exact predict_phase1_fold_other groups g.1 s
      (fun hh => h g (List.mem_cons_self g rest) hh.symm) g.2 maps

theorem predict_phase1_lookup (groups0 : List (String × List Endpoint)) (s : String)
    (es : List Endpoint) (hnd : (groups0.map Prod.fst).Nodup) (hmem : (s, es) ∈ groups0) :
    lookupA (predict_phase1 groups0) s =
      match (es.filter (qualifies_id_source groups0 s)).getLast? with
      | Option.some e => mapping_of groups0 s e
      | Option.none => Option.none := by
  obtain ⟨pre, post, rfl⟩ := List.append_of_mem hmem
  rw [List.map_append, List.map_cons] at hnd
  have hs_pre : s ∉ pre.map Prod.fst := fun hsin =>
    (List.disjoint_of_nodup_append hnd) hsin (List.mem_cons_self _ _)
  have hs_post : s ∉ post.map Prod.fst := by
    have h2 := List.Nodup.of_append_right hnd
    rw [List.nodup_cons] at h2
    exact h2.1
  unfold predict_phase1
  rw [List.foldl_append, List.foldl_cons]
  rw [predict_phase1_groups_other _ post s
    (fun g hg hgs => hs_post (hgs ▸ List.mem_map_of_mem Prod.fst hg))]
  rw [predict_phase1_fold]
  cases hrest : (es.filter (qualifies_id_source (pre ++ (s, es) :: post) s)).getLast? with
  | some e2 => rfl
  | none =>
    rw [predict_phase1_groups_other _ pre s
      (fun g hg hgs => hs_pre (hgs ▸ List.mem_map_of_mem Prod.fst hg))]
    rfl

/-! ## Characterization of the inference engine (phase 2) -/

theorem phase2_param_step_other (s path s2 : String) (h : s2 ≠ s)
    (m : List (String × IdMapping)) (p : Param) :
    lookupA (phase2_param_step s path m p) s2 = lookupA m s2 := by
  unfold phase2_param_step
  by_cases ht : p.type = "path"
  · simp only [if_pos ht]
    cases hl : lookupA m s with
    | none => rfl
    | some mp =>
      by_cases hc : p.name = mp.id_field ∨ contains_id_ci p.name = true
      · simp only [if_pos hc, lookupA_append_used_in, if_neg h]
      · simp only [if_neg hc]
  · simp only [if_neg ht]

theorem predict_phase2_endpoint_other (s s2 : String) (h : s2 ≠ s)
    (maps : List (String × IdMapping)) (e : Endpoint) :
    lookupA (predict_phase2_endpoint s maps e) s2 = lookupA maps s2 := by
  unfold predict_phase2_endpoint
  by_cases hm : e.method ∈ ["GET", "PUT", "DELETE", "PATCH"]
  · simp only [if_pos hm]
    induction e.parameters generalizing maps with
    | nil => rfl
    | cons p rest ih =>
      rw [List.foldl_cons, ih, phase2_param_step_other s e.path s2 h]
  · simp only [if_neg hm]

theorem phase2_params_fold (s path : String) (ps : List Param)
    (m : List (String × IdMapping)) (mp : IdMapping) (h : lookupA m s = Option.some mp) :
    lookupA (ps.foldl (phase2_param_step s path) m) s =
      Option.some { mp with used_in := mp.used_in ++
        ((ps.filter (fun p => p.type == "path" &&
          (p.name == mp.id_field || contains_id_ci p.name))).map (fun _ => path)) } := by
  induction ps generalizing m mp with
  | nil => simp [List.foldl, h]
  | cons p rest ih =>
    rw [List.foldl_cons, List.filter_cons]
    by_cases hc : (p.type == "path" && (p.name == mp.id_field || contains_id_ci p.name)) = true
    · simp only [Bool.and_eq_true, Bool.or_eq_true, beq_iff_eq] at hc
      have hstep : phase2_param_step s path m p = append_used_in m s path := by
        unfold phase2_param_step
        simp only [if_pos hc.1, h]
        rw [if_pos hc.2]
      have h2 : lookupA (append_used_in m s path) s =
          Option.some { mp with used_in := mp.used_in ++ [path] } := by
        rw [lookupA_append_used_in, if_pos rfl, h]
        rfl
      rw [hstep, ih _ _ h2]
      simp only [Option.some.injEq]
      have hcb : (p.type == "path" && (p.name == mp.id_field || contains_id_ci p.name)) = true := by
        simp [hc.1, hc.2]
      rw [if_pos hcb]
      simp [List.append_assoc]
    · have hstep : phase2_param_step s path m p = m := by
        unfold phase2_param_step
        by_cases ht : p.type = "path"
        · simp only [if_pos ht, h]
          rw [if_neg]
          intro hor
          apply hc
          simp only [Bool.and_eq_true, Bool.or_eq_true, beq_iff_eq]
          exact ⟨ht, hor⟩
        · rw [if_neg ht]
      rw [hstep, ih _ _ h, if_neg hc]

theorem predict_phase2_endpoint_lookup (s : String) (maps : List (String × IdMapping))
    (mp : IdMapping) (h : lookupA maps s = Option.some mp) (e : Endpoint) :
    lookupA (predict_phase2_endpoint s maps e) s =
      Option.some { mp with used_in := mp.used_in ++ matching_paths mp.id_field e } := by
  unfold predict_phase2_endpoint matching_paths
  by_cases hm : e.method ∈ ["GET", "PUT", "DELETE", "PATCH"]
  · simp only [if_pos hm]
    exact phase2_params_fold s e.path e.parameters maps mp h
  · simp only [if_neg hm]
    simp [h]

theorem phase2_es_fold (s : String) (es : List Endpoint) (maps : List (String × IdMapping))
    (mp : IdMapping) (h : lookupA maps s = Option.some mp) :
    lookupA (es.foldl (predict_phase2_endpoint s) maps) s =
      Option.some { mp with used_in := mp.used_in ++ es.flatMap (matching_paths mp.id_field) } := by
  induction es generalizing maps mp with
  | nil => simp [List.foldl, h]
  | cons e rest ih =>
    rw [List.foldl_cons]
    have h2 := predict_phase2_endpoint_lookup s maps mp h e
    rw [ih _ _ h2]
    simp [List.append_assoc]

theorem predict_phase2_es_other (s1 s : String) (h : s ≠ s1) (es : List Endpoint)
    (maps : List (String × IdMapping)) :
    lookupA (es.foldl (predict_phase2_endpoint s1) maps) s = lookupA maps s := by
  induction es generalizing maps with
  | nil => rfl
  | cons e rest ih =>
    rw [List.foldl_cons, ih, predict_phase2_endpoint_other s1 s h maps e]

theorem predict_phase2_groups_other (gs : List (String × List Endpoint)) (s : String)
    (h : ∀ g ∈ gs, g.1 ≠ s) (maps : List (String × IdMapping)) :
    lookupA (gs.foldl (fun maps g =>
      if (lookupA maps g.1).isSome then g.2.foldl (predict_phase2_endpoint g.1) maps
      else maps) maps) s = lookupA maps s := by
  induction gs generalizing maps with
  | nil => rfl
  | cons g rest ih =>
    have h2 : ∀ g2 ∈ rest, g2.1 ≠ s := fun g2 hg2 => h g2 (List.mem_cons_of_mem g hg2)
    rw [List.foldl_cons, ih h2]
    have hne : s ≠ g.1 := fun hh => h g (List.mem_cons_self g rest) hh.symm
    by_cases hg : (lookupA maps g.1).isSome
    · simp only [if_pos hg]
      exact predict_phase2_es_other g.1 s hne g.2 maps
    · simp only [if_neg hg]

theorem predict_id_usage_lookup (groups0 : List (String × List Endpoint)) (s : String)
    (es : List Endpoint) (hnd : (groups0.map Prod.fst).Nodup) (hmem : (s, es) ∈ groups0)
    (mp : IdMapping) (hmp : lookupA (predict_phase1 groups0) s = Option.some mp) :
    lookupA (predict_id_usage groups0) s =
      Option.some { mp with used_in := mp.used_in ++ es.flatMap (matching_paths mp.id_field) } := by
  unfold predict_id_usage predict_phase2
  obtain ⟨pre, post, rfl⟩ := List.append_of_mem hmem
  have hnd2 := hnd
  rw [List.map_append, List.map_cons] at hnd2
  have hs_pre : s ∉ pre.map Prod.fst := fun hsin =>
    (List.disjoint_of_nodup_append hnd2) hsin (List.mem_cons_self _ _)
  have hs_post : s ∉ post.map Prod.fst := by
    have h2 := List.Nodup.of_append_right hnd2
    rw [List.nodup_cons] at h2
    exact h2.1
  simp only [List.foldl_append, List.foldl_cons]
  rw [predict_phase2_groups_other post s
    (fun g hg hgs => hs_post (hgs ▸ List.mem_map_of_mem Prod.fst hg))]
  have hpre : lookupA (pre.foldl (fun maps g =>
      if (lookupA maps g.1).isSome then g.2.foldl (predict_phase2_endpoint g.1) maps
      else maps) (predict_phase1 (pre ++ (s, es) :: post))) s = Option.some mp := by
    rw [predict_phase2_groups_other pre s
      (fun g hg hgs => hs_pre (hgs ▸ List.mem_map_of_mem Prod.fst hg))]
    exact hmp
  rw [if_pos (by rw [hpre]; rfl)]
  exact phase2_es_fold s es _ mp hpre

/-- The last element of a list whose members are all equal to a. -/
theorem getLast?_all_eq {α : Type} (l : List α) (a : α) (hne : l ≠ [])
    (h : ∀ x ∈ l, x = a) : l.getLast? = Option.some a := by
  induction l with
  | nil => exact absurd rfl hne
  | cons x rest ih =>
    cases rest with
    | nil => simp [h x (List.mem_cons_self x [])]
    | cons y rest2 =>
      rw [List.getLast?_cons_cons]
      exact ih (by simp) (fun z hz => h z (List.mem_cons_of_mem x hz))

/-- Claim C3: when a service has two or more POST operations that each
qualify as an identifier source (a "200" or "201" response key and a
field inferred by step 1), _predict_id_usage stores exactly one
IdentifierMapping for the service, the one derived from the last
qualifying POST in iteration order: every later qualifying POST
overwrites the mapping recorded by earlier ones. -/
theorem c3_last_qualifying_post_wins (groups0 : List (String × List Endpoint)) (s : String)
    (es : List Endpoint) (hnd : (groups0.map Prod.fst).Nodup) (hmem : (s, es) ∈ groups0)
    (e_last : Endpoint)
    (hlast : (es.filter (qualifies_id_source groups0 s)).getLast? = Option.some e_last) :
    ∃ m : IdMapping, lookupA (predict_id_usage groups0) s = Option.some m ∧
      m.source = e_last.path ∧
      m.source_test_name = source_test_name_for s e_last ∧
      Option.some m.id_field = find_resource_id_field groups0 s e_last.responses := by
  have h1 := predict_phase1_lookup groups0 s es hnd hmem
  rw [hlast] at h1
  have hq : qualifies_id_source groups0 s e_last = true :=
    List.of_mem_filter (List.mem_of_mem_getLast? hlast)
  have hfind : ∃ f, find_resource_id_field groups0 s e_last.responses = Option.some f := by
    simp only [qualifies_id_source, Bool.and_eq_true, Option.isSome_iff_exists] at hq
    exact hq.2
  obtain ⟨f, hf⟩ := hfind
  have h2 : lookupA (predict_phase1 groups0) s =
      Option.some (mk_id_mapping s e_last f) := by
    rw [h1]
    simp [mapping_of, hf]
  refine ⟨_, predict_id_usage_lookup groups0 s es hnd hmem _ h2, rfl, rfl, ?_⟩
  rw [hf]
  rfl

/-- The claim C3 theorem applied to cat_widgets, whose widgets service
has two qualifying POSTs: the recorded mapping is derived from the
second one, POST /widgets/extra. -/
theorem c3_last_qualifying_post_wins_witness :
    ∃ m : IdMapping,
      lookupA (predict_id_usage (get_endpoint_groups cat_widgets)) "widgets" = Option.some m ∧
      m.source = "POST /widgets/extra" ∧
      m.source_test_name = "test_post_widgets_extra_default" := by
  obtain ⟨m, hm, hsrc, hname, _⟩ := c3_last_qualifying_post_wins
    (get_endpoint_groups cat_widgets) "widgets"
    ((lookupA (get_endpoint_groups cat_widgets) "widgets").getD [])
    (by decide) (by decide)
    (((lookupA (get_endpoint_groups cat_widgets) "widgets").getD []).get ⟨1, by decide⟩)
    (by decide)
  exact ⟨m, hm, by rw [hsrc]; decide, by rw [hname]; decide⟩

/-- Claim C10: for every service with an IdentifierMapping, the second
loop of _predict_id_usage appends a dependent GET/PUT/DELETE/PATCH
operation path to used_in once per path parameter of that operation
that matches (name equal to id_field, or containing "id"
case-insensitively): used_in is exactly the in-order concatenation of
matching_paths over the service endpoints, where matching_paths lists
the operation path once per matching parameter; an operation with two
matching path parameters therefore appears twice, and nothing is ever
deduplicated. -/
theorem c10_used_in_once_per_matching_param (groups0 : List (String × List Endpoint))
    (s : String) (es : List Endpoint) (hnd : (groups0.map Prod.fst).Nodup)
    (hmem : (s, es) ∈ groups0) (mp : IdMapping)
    (hmp : lookupA (predict_phase1 groups0) s = Option.some mp) (hui : mp.used_in = []) :
    lookupA (predict_id_usage groups0) s =
      Option.some { mp with used_in := es.flatMap (matching_paths mp.id_field) } := by
  rw [predict_id_usage_lookup groups0 s es hnd hmem mp hmp]
  simp [hui]

/-- The claim C10 theorem applied to cat_things, whose GET has two
matching path parameters: the path appears twice in used_in. -/
theorem c10_used_in_once_per_matching_param_witness :
    lookupA (predict_id_usage (get_endpoint_groups cat_things)) "things" =
      Option.some { source := "POST /things", source_test_name := "test_post_things_default",
                    id_field := "thingId",
                    used_in := ["GET /things/\x7bthingId\x7d/\x7bsubId\x7d",
                                "GET /things/\x7bthingId\x7d/\x7bsubId\x7d"] } := by
  have h := c10_used_in_once_per_matching_param (get_endpoint_groups cat_things) "things"
    ((lookupA (get_endpoint_groups cat_things) "things").getD [])
    (by decide) (by decide)
    { source := "POST /things", source_test_name := "test_post_things_default",
      id_field := "thingId", used_in := [] }
    (by decide) rfl
  exact h.trans (by decide)

/-- Claim C1: for a service whose sole POST has a "200" or "201"
response key, whose first 2xx response carries an object schema, and
whose properties contain a path-parameter name of the non-POST
operations (first match in path-parameter set iteration order), the
engine records an IdentifierMapping with id_field equal to that
property name, and the path of a GET that consumes the parameter is
added to used_in. -/
theorem c1_creation_id_field_inferred (groups0 : List (String × List Endpoint)) (s : String)
    (es : List Endpoint) (hnd : (groups0.map Prod.fst).Nodup) (hmem : (s, es) ∈ groups0)
    (p : Endpoint) (hp : p ∈ es) (hpost : p.method = "POST")
    (honly : ∀ e ∈ es, e.method = "POST" → e = p)
    (hcode : responses_have_code p.responses "200" = true ∨
             responses_have_code p.responses "201" = true)
    (r : Response) (hr : first_success p.responses = Option.some r)
    (sch : Schema) (hsch : r.schema = Option.some sch)
    (hty : sch.type = Option.some "object") (hpr : sch.properties ≠ SProps.nil)
    (pParam : String)
    (hfind : (get_path_parameters groups0 s).find?
      (fun q => sch.properties.keys.contains q) = Option.some pParam)
    (g : Endpoint) (hg : g ∈ es) (hget : g.method = "GET")
    (hgp : ∃ pr ∈ g.parameters, pr.name = pParam ∧ pr.type = "path") :
    ∃ m : IdMapping, lookupA (predict_id_usage groups0) s = Option.some m ∧
      m.id_field = pParam ∧ g.path ∈ m.used_in := by
  have hfind2 : find_resource_id_field groups0 s p.responses = Option.some pParam := by
    have hfind3 : (get_path_parameters groups0 s).find?
        (fun q => decide (q ∈ sch.properties.keys)) = Option.some pParam := by
      simpa using hfind
    unfold find_resource_id_field
    simp [hr, hsch, hty, hpr, hfind3]
  have hq : qualifies_id_source groups0 s p = true := by
    simp [qualifies_id_source, hpost, hfind2]
    cases hcode with
    | inl h => exact Or.inl h
    | inr h => exact Or.inr h
  have hfilter : es.filter (qualifies_id_source groups0 s) ≠ [] := by
    intro hnil
    have : p ∈ es.filter (qualifies_id_source groups0 s) := List.mem_filter.mpr ⟨hp, hq⟩
    rw [hnil] at this
    exact List.not_mem_nil p this
  have hall : ∀ x ∈ es.filter (qualifies_id_source groups0 s), x = p := by
    intro x hx
    have hx2 := List.mem_filter.mp hx
    have hxpost : x.method = "POST" := by
      have := hx2.2
      simp only [qualifies_id_source, Bool.and_eq_true, beq_iff_eq] at this
      exact this.1.1
    exact honly x hx2.1 hxpost
  have hlast := getLast?_all_eq _ p hfilter hall
  have h1 := predict_phase1_lookup groups0 s es hnd hmem
  rw [hlast] at h1
  have h2 : lookupA (predict_phase1 groups0) s =
      Option.some (mk_id_mapping s p pParam) := by
    rw [h1]
    simp [mapping_of, hfind2]
  refine ⟨_, predict_id_usage_lookup groups0 s es hnd hmem _ h2, rfl, ?_⟩
  simp only [List.mem_append]
  right
  rw [List.mem_flatMap]
  refine ⟨g, hg, ?_⟩
  obtain ⟨pr, hprm, hprn, hprt⟩ := hgp
  unfold matching_paths
  rw [if_pos (by rw [hget]; decide)]
  have hprf : pr ∈ g.parameters.filter (fun q =>
      q.type == "path" && (q.name == (mk_id_mapping s p pParam).id_field ||
        contains_id_ci q.name)) := by
    rw [List.mem_filter]
    refine ⟨hprm, ?_⟩
    simp [hprt, hprn, mk_id_mapping]
  exact List.mem_map_of_mem (fun _ => g.path) hprf

/-- The claim C1 theorem applied to cat_addresses: id_field "addressId"
is inferred and the GET path lands in used_in. -/
theorem c1_creation_id_field_inferred_witness :
    ∃ m : IdMapping,
      lookupA (predict_id_usage (get_endpoint_groups cat_addresses)) "addresses" =
        Option.some m ∧
      m.id_field = "addressId" ∧
      "GET /addresses/\x7baddressId\x7d" ∈ m.used_in := by
  obtain ⟨m, hm, hid, hin⟩ := c1_creation_id_field_inferred
    (get_endpoint_groups cat_addresses) "addresses"
    ((lookupA (get_endpoint_groups cat_addresses) "addresses").getD [])
    (by decide) (by decide)
    (((lookupA (get_endpoint_groups cat_addresses) "addresses").getD []).get ⟨0, by decide⟩)
    (by decide) (by decide) (by decide)
    (Or.inr (by decide))
    { status_code := Option.some 201, schema := Option.some schema_address }
    (by decide) schema_address (by decide) (by decide) (by decide)
    "addressId" (by decide)
    (((lookupA (get_endpoint_groups cat_addresses) "addresses").getD []).get ⟨1, by decide⟩)
    (by decide) (by decide)
    ⟨{ name := "addressId", type := "path" }, by decide, rfl, rfl⟩
  refine ⟨m, hm, hid, ?_⟩
  have hpath : (((lookupA (get_endpoint_groups cat_addresses) "addresses").getD []).get
      ⟨1, by decide⟩).path = "GET /addresses/\x7baddressId\x7d" := by decide
  rw [hpath] at hin
  exact hin

/-- Claim C2: a success response whose schema is a bare string with
format "uuid" and content type "text/plain" makes
_find_resource_id_field synthesize the field name service ++ "Id" (the
service key, lower-case in the pipeline, followed by "Id") even though
no such field exists in the body, while a bare string success schema
without the uuid/text-plain specialization yields the sentinel
"response". -/
theorem c2_uuid_plain_synthesizes_id (groups0 : List (String × List Endpoint))
    (service : String) (responses : List (String × Response)) :
    (∀ r sch, first_success responses = Option.some r → r.schema = Option.some sch →
      r.content_type = Option.some "text/plain" → sch.type = Option.some "string" →
      sch.format = Option.some "uuid" → py_lower service = service →
      find_resource_id_field groups0 service responses = Option.some (service ++ "Id")) ∧
    (∀ r sch, first_success responses = Option.some r → r.schema = Option.some sch →
      sch.type = Option.some "string" →
      (r.content_type ≠ Option.some "text/plain" ∨ sch.format ≠ Option.some "uuid") →
      find_resource_id_field groups0 service responses = Option.some "response") := by
  constructor
  · intro r sch hr hsch hct hty hf hlow
    unfold find_resource_id_field
    simp [hr, hsch, hct, hty, hf, hlow]
  · intro r sch hr hsch hty hspec
    unfold find_resource_id_field
    simp only [hr, hsch]
    rw [if_neg (fun hc => by
      cases hspec with
      | inl h => exact h hc.1
      | inr h => exact h hc.2.2)]
    rw [if_pos hty]

/-- The claim C2 theorem applied to a bare-uuid text/plain response of
service "orders" ("ordersId" with no such body field) and to a plain
string response ("response"). -/
theorem c2_uuid_plain_synthesizes_id_witness :
    find_resource_id_field [] "orders" responses_uuid_plain = Option.some "ordersId" ∧
    find_resource_id_field [] "orders" responses_plain_string = Option.some "response" := by
  constructor
  · exact (c2_uuid_plain_synthesizes_id [] "orders" responses_uuid_plain).1 _ _
      rfl rfl rfl rfl rfl (by decide)
  · exact (c2_uuid_plain_synthesizes_id [] "orders" responses_plain_string).2 _ _
      rfl rfl rfl (Or.inl (by decide))

/-- Claim C6 evaluated at its failing input: for the catalog key
"GET /users/profile/settings" the test-group classifier returns service
key "users", not "profile" as the claim states, because its special
case compares the whole first path segment against "users_profile",
which a slash-separated path never equals; the path-declaration
generator of models_endpoints.py does map the same path to the
UsersProfile class. -/
theorem c6_users_profile_classifier_eval :
    (get_service_and_title cat_profile "GET /users/profile/settings").1 = "users" ∧
    "users" ≠ "profile" ∧
    "    class UsersProfile:" ∈ generate_paths_content_lines cat_profile ∧
    lookupA (get_endpoint_groups cat_profile) "profile" = Option.none ∧
    (lookupA (get_endpoint_groups cat_profile) "users").isSome = true := by
  refine ⟨by decide, by decide, by decide, by decide, by decide⟩

/-- Counterexample to claim C7: on a failed catalog load,
EndpointsContainer does not raise; it swallows the error, keeps an
empty catalog and still generates both of its artifacts. -/
theorem c7_endpoints_generate_after_failure :
    endpoints_load_api_reference (Except.error "boom") = ([] : Catalog) ∧
    (endpoints_container_init (Except.error "boom")).files.map (fun f => f.name) =
      ["paths.py", "configs.py"] ∧
    (endpoints_container_init (Except.error "boom")).files.length = 2 := by
  refine ⟨rfl, rfl, rfl⟩

/-- Claim C7 as amended: a catalog load failure is fatal for
ValidationsContainer (re-raised with a wrapping message) and for
TestsContainer (propagated, no files), but EndpointsContainer catches
it, continues with an empty catalog, and still emits its two files
paths.py and configs.py. -/
theorem c7_amended_load_failure_behavior (msg : String) :
    endpoints_load_api_reference (Except.error msg) = ([] : Catalog) ∧
    (endpoints_container_init (Except.error msg)).files.map (fun f => f.name) =
      ["paths.py", "configs.py"] ∧
    validates_load_api_reference (Except.error msg) =
      Except.error ("Failed to load api_reference.json: " ++ msg) ∧
    tests_container_files (Except.error msg) = Except.error msg := by
  refine ⟨rfl, rfl, rfl, rfl⟩

/-! ## Line-shape lemmas for the emitted test code -/

theorem not_prefix_at (p head t : String) (i : Nat) (h1 : i < p.data.length)
    (h2 : i < head.data.length) (h3 : p.data[i]? ≠ head.data[i]?) :
    p.data.isPrefixOf (head ++ t).data = false := by
  rw [String.data_append]
  by_contra hb
  rw [Bool.not_eq_false, List.isPrefixOf_iff_prefix] at hb
  obtain ⟨u, hu⟩ := hb
  apply h3
  calc p.data[i]? = (p.data ++ u)[i]? := (List.getElem?_append_left h1).symm
    _ = (head.data ++ t.data)[i]? := by rw [hu]
    _ = head.data[i]? := List.getElem?_append_left h2

theorem prefix_extends (p head t : String) (h : p.data.isPrefixOf head.data = true) :
    p.data.isPrefixOf (head ++ t).data = true := by
  rw [String.data_append, List.isPrefixOf_iff_prefix] at *
  exact h.trans (List.prefix_append _ _)

@[simp] theorem async_shape_story (t : String) :
    is_async_line ("@allure.story(\x27" ++ t) = false :=
  not_prefix_at _ _ t 0 (by decide) (by decide) (by decide)

@[simp] theorem async_shape_component (t : String) :
    is_async_line ("@allure.label(\"component\", \"" ++ t) = false :=
  not_prefix_at _ _ t 0 (by decide) (by decide) (by decide)

@[simp] theorem async_shape_owner (t : String) :
    is_async_line ("@allure.label(\"owner\", \"" ++ t) = false :=
  not_prefix_at _ _ t 0 (by decide) (by decide) (by decide)

@[simp] theorem async_shape_class (t : String) :
    is_async_line ("class Test" ++ t) = false :=
  not_prefix_at _ _ t 0 (by decide) (by decide) (by decide)

@[simp] theorem async_shape_decorator (t : String) :
    is_async_line ("    @pytest.mark.dependency(name=\x27" ++ t) = false :=
  not_prefix_at _ _ t 4 (by decide) (by decide) (by decide)

@[simp] theorem async_shape_async (t : String) :
    is_async_line ("    async def " ++ t) = true :=
  prefix_extends _ _ t (by decide)

@[simp] theorem async_shape_quote (t : String) :
    is_async_line ("            \x27" ++ t) = false :=
  not_prefix_at _ _ t 4 (by decide) (by decide) (by decide)

@[simp] theorem async_shape_models (t : String) :
    is_async_line ("            models." ++ t) = false :=
  not_prefix_at _ _ t 4 (by decide) (by decide) (by decide)

@[simp] theorem async_shape_headers (t : String) :
    is_async_line ("            headers=" ++ t) = false :=
  not_prefix_at _ _ t 4 (by decide) (by decide) (by decide)

@[simp] theorem async_shape_data (t : String) :
    is_async_line ("            data_type=" ++ t) = false :=
  not_prefix_at _ _ t 4 (by decide) (by decide) (by decide)

@[simp] theorem async_shape_expected (t : String) :
    is_async_line ("            expected_status_code=" ++ t) = false :=
  not_prefix_at _ _ t 4 (by decide) (by decide) (by decide)

@[simp] theorem async_shape_validate (t : String) :
    is_async_line ("            validate_model=" ++ t) = false :=
  not_prefix_at _ _ t 4 (by decide) (by decide) (by decide)

@[simp] theorem async_shape_comment (t : String) :
    is_async_line ("        # Автоматически выбрано поле \x27" ++ t) = false :=
  not_prefix_at _ _ t 4 (by decide) (by decide) (by decide)

@[simp] theorem async_shape_assign2 (t : String) :
    is_async_line ("        self.__class__.resource_id = response[\x27" ++ t) = false :=
  not_prefix_at _ _ t 4 (by decide) (by decide) (by decide)

@[simp] theorem assign_shape_story (t : String) :
    is_resource_assign_line ("@allure.story(\x27" ++ t) = false :=
  not_prefix_at _ _ t 0 (by decide) (by decide) (by decide)

@[simp] theorem assign_shape_component (t : String) :
    is_resource_assign_line ("@allure.label(\"component\", \"" ++ t) = false :=
  not_prefix_at _ _ t 0 (by decide) (by decide) (by decide)

@[simp] theorem assign_shape_owner (t : String) :
    is_resource_assign_line ("@allure.label(\"owner\", \"" ++ t) = false :=
  not_prefix_at _ _ t 0 (by decide) (by decide) (by decide)

@[simp] theorem assign_shape_class (t : String) :
    is_resource_assign_line ("class Test" ++ t) = false :=
  not_prefix_at _ _ t 0 (by decide) (by decide) (by decide)

@[simp] theorem assign_shape_decorator (t : String) :
    is_resource_assign_line ("    @pytest.mark.dependency(name=\x27" ++ t) = false :=
  not_prefix_at _ _ t 4 (by decide) (by decide) (by decide)

@[simp] theorem assign_shape_async (t : String) :
    is_resource_assign_line ("    async def " ++ t) = false :=
  not_prefix_at _ _ t 4 (by decide) (by decide) (by decide)

@[simp] theorem assign_shape_quote (t : String) :
    is_resource_assign_line ("            \x27" ++ t) = false :=
  not_prefix_at _ _ t 8 (by decide) (by decide) (by decide)

@[simp] theorem assign_shape_models (t : String) :
    is_resource_assign_line ("            models." ++ t) = false :=
  not_prefix_at _ _ t 8 (by decide) (by decide) (by decide)

@[simp] theorem assign_shape_headers (t : String) :
    is_resource_assign_line ("            headers=" ++ t) = false :=
  not_prefix_at _ _ t 8 (by decide) (by decide) (by decide)

@[simp] theorem assign_shape_data (t : String) :
    is_resource_assign_line ("            data_type=" ++ t) = false :=
  not_prefix_at _ _ t 8 (by decide) (by decide) (by decide)

@[simp] theorem assign_shape_expected (t : String) :
    is_resource_assign_line ("            expected_status_code=" ++ t) = false :=
  not_prefix_at _ _ t 8 (by decide) (by decide) (by decide)

@[simp] theorem assign_shape_validate (t : String) :
    is_resource_assign_line ("            validate_model=" ++ t) = false :=
  not_prefix_at _ _ t 8 (by decide) (by decide) (by decide)

@[simp] theorem assign_shape_comment (t : String) :
    is_resource_assign_line ("        # Автоматически выбрано поле \x27" ++ t) = false :=
  not_prefix_at _ _ t 8 (by decide) (by decide) (by decide)

@[simp] theorem assign_shape_assign2 (t : String) :
    is_resource_assign_line ("        self.__class__.resource_id = response[\x27" ++ t) = true :=
  prefix_extends _ _ t (by decide)

@[simp] theorem class_shape_story (t : String) :
    is_class_line ("@allure.story(\x27" ++ t) = false :=
  not_prefix_at _ _ t 0 (by decide) (by decide) (by decide)

@[simp] theorem class_shape_component (t : String) :
    is_class_line ("@allure.label(\"component\", \"" ++ t) = false :=
  not_prefix_at _ _ t 0 (by decide) (by decide) (by decide)

@[simp] theorem class_shape_owner (t : String) :
    is_class_line ("@allure.label(\"owner\", \"" ++ t) = false :=
  not_prefix_at _ _ t 0 (by decide) (by decide) (by decide)

@[simp] theorem class_shape_class (t : String) :
    is_class_line ("class Test" ++ t) = true :=
  prefix_extends _ _ t (by decide)

@[simp] theorem class_shape_decorator (t : String) :
    is_class_line ("    @pytest.mark.dependency(name=\x27" ++ t) = false :=
  not_prefix_at _ _ t 0 (by decide) (by decide) (by decide)

@[simp] theorem class_shape_async (t : String) :
    is_class_line ("    async def " ++ t) = false :=
  not_prefix_at _ _ t 0 (by decide) (by decide) (by decide)

@[simp] theorem class_shape_quote (t : String) :
    is_class_line ("            \x27" ++ t) = false :=
  not_prefix_at _ _ t 0 (by decide) (by decide) (by decide)

@[simp] theorem class_shape_models (t : String) :
    is_class_line ("            models." ++ t) = false :=
  not_prefix_at _ _ t 0 (by decide) (by decide) (by decide)

@[simp] theorem class_shape_headers (t : String) :
    is_class_line ("            headers=" ++ t) = false :=
  not_prefix_at _ _ t 0 (by decide) (by decide) (by decide)

@[simp] theorem class_shape_data (t : String) :
    is_class_line ("            data_type=" ++ t) = false :=
  not_prefix_at _ _ t 0 (by decide) (by decide) (by decide)

@[simp] theorem class_shape_expected (t : String) :
    is_class_line ("            expected_status_code=" ++ t) = false :=
  not_prefix_at _ _ t 0 (by decide) (by decide) (by decide)

@[simp] theorem class_shape_validate (t : String) :
    is_class_line ("            validate_model=" ++ t) = false :=
  not_prefix_at _ _ t 0 (by decide) (by decide) (by decide)

@[simp] theorem class_shape_comment (t : String) :
    is_class_line ("        # Автоматически выбрано поле \x27" ++ t) = false :=
  not_prefix_at _ _ t 0 (by decide) (by decide) (by decide)

@[simp] theorem class_shape_assign2 (t : String) :
    is_class_line ("        self.__class__.resource_id = response[\x27" ++ t) = false :=
  not_prefix_at _ _ t 0 (by decide) (by decide) (by decide)

/-! ## Counting emitted lines -/

theorem countP_header_async (service title : String) (maps : List (String × IdMapping)) :
    List.countP is_async_line (class_header_lines service title maps) = 0 := by
  unfold class_header_lines
  by_cases h : (lookupA maps service).isSome <;>
    simp +decide [h, List.countP_cons, List.countP_append]

theorem countP_header_assign (service title : String) (maps : List (String × IdMapping)) :
    List.countP is_resource_assign_line (class_header_lines service title maps) = 0 := by
  unfold class_header_lines
  by_cases h : (lookupA maps service).isSome <;>
    simp +decide [h, List.countP_cons, List.countP_append]

theorem countP_header_class (service title : String) (maps : List (String × IdMapping)) :
    List.countP is_class_line (class_header_lines service title maps) = 1 := by
  unfold class_header_lines
  by_cases h : (lookupA maps service).isSome <;>
    simp +decide [h, List.countP_cons, List.countP_append]


set_option maxHeartbeats 2000000 in
theorem countP_method_async (service title : String) (maps : List (String × IdMapping))
    (e : Endpoint) :
    List.countP is_async_line (method_lines service title maps e) =
      if (first_success e.responses).isSome then 1 else 0 := by
  unfold method_lines
  cases hfs : first_success e.responses with
  | none => simp
  | some success =>
    simp only [Option.isSome_some, if_true]
    repeat' split
    all_goals simp +decide [List.countP_cons, List.countP_append]

set_option maxHeartbeats 2000000 in
theorem countP_method_class (service title : String) (maps : List (String × IdMapping))
    (e : Endpoint) :
    List.countP is_class_line (method_lines service title maps e) = 0 := by
  unfold method_lines
  cases hfs : first_success e.responses with
  | none => simp
  | some success =>
    repeat' split
    all_goals simp +decide [List.countP_cons, List.countP_append]
    all_goals try constructor
    all_goals try intro a ha
    all_goals try split at ha
    all_goals try split at ha
    all_goals try simp at ha
    all_goals try casesm* _ ∨ _
    all_goals try simp_all +decide
    all_goals try intro ha2
    all_goals try split at ha2
    all_goals simp_all +decide

set_option maxHeartbeats 2000000 in
theorem countP_method_assign (service title : String) (maps : List (String × IdMapping))
    (e : Endpoint) (r : Response) (hr : first_success e.responses = Option.some r) :
    List.countP is_resource_assign_line (method_lines service title maps e) =
      if r.status_code = Option.some 201 ∧ (lookupA maps service).isSome then 1 else 0 := by
  unfold method_lines
  simp only [hr]
  repeat' split
  all_goals simp_all +decide [List.countP_cons, List.countP_append]

theorem foldl_append_flatMap (f : Endpoint → List String) (l : List Endpoint) :
    ∀ init : List String,
      l.foldl (fun acc e => acc ++ f e) init = init ++ l.flatMap f := by
  induction l with
  | nil => intro init; simp
  | cons x xs ih => intro init; simp [ih, List.append_assoc]

theorem sum_map_ite_countP (p : Endpoint → Bool) (l : List Endpoint) :
    (l.map (fun e => if p e then 1 else 0)).sum = l.countP p := by
  induction l with
  | nil => rfl
  | cons x xs ih =>
    simp [List.countP_cons, ih]
    by_cases h : p x <;> simp [h, Nat.add_comm]

theorem chars_le_total : ∀ s t : List Char, chars_le s t = true ∨ chars_le t s = true
  | [], _ => Or.inl rfl
  | _ :: _, [] => Or.inr rfl
  | a :: as1, b :: bs1 => by
    by_cases hab : a = b
    · subst hab
      simpa [chars_le] using chars_le_total as1 bs1
    · rcases lt_trichotomy a b with h | h | h
      · exact Or.inl (by simp [chars_le, hab, h])
      · exact absurd h hab
      · exact Or.inr (by simp [chars_le, Ne.symm hab, h])

theorem chars_le_trans : ∀ s t u : List Char,
    chars_le s t = true → chars_le t u = true → chars_le s u = true
  | [], _, _, _, _ => rfl
  | a :: as1, [], _, h1, _ => by simp [chars_le] at h1
  | a :: as1, b :: bs1, [], _, h2 => by simp [chars_le] at h2
  | a :: as1, b :: bs1, c :: cs1, h1, h2 => by
    by_cases hab : a = b <;> by_cases hbc : b = c
    · subst hab; subst hbc
      simp [chars_le] at h1 h2 ⊢
      exact chars_le_trans as1 bs1 cs1 h1 h2
    · subst hab
      simp [chars_le, hbc] at h2
      simp [chars_le, hbc, h2]
    · subst hbc
      simp [chars_le, hab] at h1
      simp [chars_le, hab, h1]
    · simp [chars_le, hab] at h1
      simp [chars_le, hbc] at h2
      have hac : a < c := lt_trans h1 h2
      simp [chars_le, ne_of_lt hac, hac]

theorem sort_key_le_total (a b : Endpoint) :
    sort_key_le a b = true ∨ sort_key_le b a = true := by
  unfold sort_key_le py_str_le
  rcases lt_trichotomy (method_order a.method) (method_order b.method) with h | h | h
  · left; simp [h]
  · rcases chars_le_total a.path.data b.path.data with hc | hc
    · left; simp [h, hc]
    · right; simp [h.symm, hc]
  · right; simp [h]

theorem sort_key_le_trans (a b c : Endpoint)
    (h1 : sort_key_le a b = true) (h2 : sort_key_le b c = true) :
    sort_key_le a c = true := by
  unfold sort_key_le py_str_le at h1 h2 ⊢
  simp only [decide_eq_true_eq] at h1 h2 ⊢
  rcases h1 with h1 | ⟨h1e, h1s⟩ <;> rcases h2 with h2 | ⟨h2e, h2s⟩
  · exact Or.inl (lt_trans h1 h2)
  · exact Or.inl (h2e ▸ h1)
  · exact Or.inl (h1e ▸ h2)
  · exact Or.inr ⟨h1e.trans h2e, chars_le_trans _ _ _ h1s h2s⟩

theorem insert_by_key_perm (x : Endpoint) (l : List Endpoint) :
    (insert_by_key x l).Perm (x :: l) := by
  induction l with
  | nil => exact List.Perm.refl _
  | cons y ys ih =>
    unfold insert_by_key
    by_cases hc : sort_key_le y x = true
    · rw [if_pos hc]
      exact (ih.cons y).trans (List.Perm.swap x y ys)
    · rw [if_neg hc]

theorem py_sort_fold_perm (l : List Endpoint) :
    ∀ acc : List Endpoint,
      (l.foldl (fun acc x => insert_by_key x acc) acc).Perm (acc ++ l) := by
  induction l with
  | nil => intro acc; simp
  | cons x xs ih =>
    intro acc
    refine (ih (insert_by_key x acc)).trans ?_
    refine (((insert_by_key_perm x acc).append_right xs).trans ?_)
    exact List.perm_middle.symm

theorem py_sort_endpoints_perm (l : List Endpoint) :
    (py_sort_endpoints l).Perm l := by
  simpa using py_sort_fold_perm l []

theorem insert_by_key_pairwise (x : Endpoint) (l : List Endpoint)
    (h : l.Pairwise (fun a b => sort_key_le a b = true)) :
    (insert_by_key x l).Pairwise (fun a b => sort_key_le a b = true) := by
  induction l with
  | nil => simp [insert_by_key]
  | cons y ys ih =>
    rw [List.pairwise_cons] at h
    obtain ⟨hy, hys⟩ := h
    unfold insert_by_key
    by_cases hc : sort_key_le y x = true
    · rw [if_pos hc]
      rw [List.pairwise_cons]
      refine ⟨?_, ih hys⟩
      intro b hb
      rcases List.mem_cons.mp ((insert_by_key_perm x ys).mem_iff.mp hb) with rfl | hb2
      · exact hc
      · exact hy b hb2
    · rw [if_neg hc]
      have hxy : sort_key_le x y = true :=
        (sort_key_le_total x y).resolve_right (fun h => hc h)
      rw [List.pairwise_cons]
      refine ⟨?_, List.Pairwise.cons hy hys⟩
      intro b hb
      rcases List.mem_cons.mp hb with rfl | hb
      · exact hxy
      · exact sort_key_le_trans x y b hxy (hy b hb)

theorem py_sort_fold_pairwise (l : List Endpoint) :
    ∀ acc : List Endpoint,
      acc.Pairwise (fun a b => sort_key_le a b = true) →
      (l.foldl (fun acc x => insert_by_key x acc) acc).Pairwise
        (fun a b => sort_key_le a b = true) := by
  induction l with
  | nil => intro acc h; simpa using h
  | cons x xs ih =>
    intro acc h
    exact ih (insert_by_key x acc) (insert_by_key_pairwise x acc h)

theorem py_sort_endpoints_pairwise (l : List Endpoint) :
    (py_sort_endpoints l).Pairwise (fun a b => sort_key_le a b = true) :=
  py_sort_fold_pairwise l [] List.Pairwise.nil

/-- C5: for every service the generator emits one test file per group and
one test class, with one async test method per endpoint that has a
success (2xx) response — endpoints without one are skipped — and the
methods ordered by method rank (POST, PUT, GET, PATCH, DELETE) with the
path as secondary key. -/
theorem c5_one_class_method_per_success_endpoint (service : String)
    (endpoints : List Endpoint) (maps : List (String × IdMapping))
    (groups : List (String × List Endpoint)) :
    (generate_test_files groups maps).length = groups.length ∧
    List.countP is_class_line (generate_test_content_lines service endpoints maps) = 1 ∧
    List.countP is_async_line (generate_test_content_lines service endpoints maps) =
      (endpoints.filter (fun e => (first_success e.responses).isSome)).length ∧
    (py_sort_endpoints endpoints).Perm endpoints ∧
    (py_sort_endpoints endpoints).Pairwise (fun a b => sort_key_le a b = true) := by
  refine ⟨by simp [generate_test_files], ?_, ?_,
    py_sort_endpoints_perm endpoints, py_sort_endpoints_pairwise endpoints⟩
  · unfold generate_test_content_lines
    rw [foldl_append_flatMap, List.countP_append, countP_header_class,
      List.countP_flatMap]
    have hz : ∀ n ∈ (py_sort_endpoints endpoints).map
        (List.countP is_class_line ∘ method_lines service
          (match endpoints with | [] => "common" | e :: _ => e.title) maps), n = 0 := by
      intro n hn
      obtain ⟨e, _, he⟩ := List.mem_map.mp hn
      rw [← he]
      exact countP_method_class _ _ _ _
    rw [List.sum_eq_zero hz]
    omega
  · unfold generate_test_content_lines
    rw [foldl_append_flatMap, List.countP_append, countP_header_async,
      List.countP_flatMap]
    have hmap : (py_sort_endpoints endpoints).map
        (List.countP is_async_line ∘ method_lines service
          (match endpoints with | [] => "common" | e :: _ => e.title) maps) =
        (py_sort_endpoints endpoints).map
          (fun e => if (first_success e.responses).isSome then 1 else 0) := by
      apply List.map_congr_left
      intro e _
      exact countP_method_async _ _ _ _
    rw [hmap, sum_map_ite_countP,
      (py_sort_endpoints_perm endpoints).countP_eq,
      List.countP_eq_length_filter]
    omega

/-- C5 counterexample to the frozen wording: the w service groups two
endpoints, but only one test method is generated — the GET, whose only
response is a 404, is skipped by the continue branch. -/
theorem c5_counterexample_skipped_endpoint :
    ((lookupA (get_endpoint_groups cat_w) "w").getD []).length = 2 ∧
    List.countP is_async_line
      (generate_test_content_lines "w"
        ((lookupA (get_endpoint_groups cat_w) "w").getD [])
        (predict_id_usage (get_endpoint_groups cat_w))) = 1 := by
  constructor
  · decide
  · decide

/-- C4: the class header never writes the shared resource_id slot, and a
test method writes it exactly when its expected status is 201 and the
service has an identifier mapping — hence every 201-status method of a
mapped service is a writer, not only the designated creation test. -/
theorem c4_resource_id_write_iff_201_mapped (service title : String)
    (maps : List (String × IdMapping)) (e : Endpoint) (r : Response)
    (hr : first_success e.responses = Option.some r) :
    List.countP is_resource_assign_line (method_lines service title maps e) =
      (if r.status_code = Option.some 201 ∧ (lookupA maps service).isSome then 1 else 0) ∧
    List.countP is_resource_assign_line (class_header_lines service title maps) = 0 :=
  ⟨countP_method_assign service title maps e r hr, countP_header_assign service title maps⟩

/-- C4 witness: the theorem applied to the PUT endpoint of the items
service, whose success response has status 201. -/
theorem c4_resource_id_write_iff_201_mapped_witness :
    first_success ((((lookupA (get_endpoint_groups cat_items) "items").getD []).get
        ⟨1, by decide⟩).responses) =
      Option.some { status_code := Option.some 201,
                    schema := Option.some (Schema.obj [("ok", Schema.scalar "string")]) } ∧
    (List.countP is_resource_assign_line (method_lines "items" "common"
        (predict_id_usage (get_endpoint_groups cat_items))
        (((lookupA (get_endpoint_groups cat_items) "items").getD []).get ⟨1, by decide⟩)) =
      (if ({ status_code := Option.some 201,
             schema := Option.some (Schema.obj [("ok", Schema.scalar "string")]) } :
             Response).status_code = Option.some 201 ∧
          (lookupA (predict_id_usage (get_endpoint_groups cat_items)) "items").isSome
        then 1 else 0) ∧
     List.countP is_resource_assign_line (class_header_lines "items" "common"
        (predict_id_usage (get_endpoint_groups cat_items))) = 0) :=
  ⟨by decide,
   c4_resource_id_write_iff_201_mapped "items" "common"
     (predict_id_usage (get_endpoint_groups cat_items))
     (((lookupA (get_endpoint_groups cat_items) "items").getD []).get ⟨1, by decide⟩)
     { status_code := Option.some 201,
       schema := Option.some (Schema.obj [("ok", Schema.scalar "string")]) }
     (by decide)⟩

/-- C4 counterexample to the frozen wording: in the items service both the
POST and the PUT have a 201 success response, and the emitted class
contains two resource_id writers, so the designated creation test is not
the only writer. -/
theorem c4_counterexample_two_writers :
    List.countP is_resource_assign_line
      (generate_test_content_lines "items"
        ((lookupA (get_endpoint_groups cat_items) "items").getD [])
        (predict_id_usage (get_endpoint_groups cat_items))) = 2 := by decide

@[simp] theorem assemble_array_model_snd (m i s : String) (r : List String × List String) :
    (assemble_array_model m i s r).2 = r.2 := rfl

@[simp] theorem assemble_object_model_snd (m : String)
    (r : List String × List (List String) × List String) :
    (assemble_object_model m r).2 = r.2.2 := rfl

@[simp] theorem assemble_field_set (n : String) (s : Schema) (req : List String)
    (istr : String) (nested : List String × List String)
    (r : List String × List (List String) × List String) :
    (assemble_field n s req istr nested r).2.2 = r.2.2 := rfl

set_option maxHeartbeats 2000000 in
mutual
theorem generated_models_subset_model (schema : Schema) (model_name : String)
    (field_name : Option String) (indent : Nat) (gen : List String) :
    ∀ x ∈ gen, x ∈ (generate_pydantic_model schema model_name field_name indent gen).2 := by
  intro x hx
  unfold generate_pydantic_model
  by_cases hmem : model_name ∈ gen
  · rw [if_pos hmem]; exact hx
  · rw [if_neg hmem]
    cases schema with
    | mk ty fmt props items required nullable =>
      by_cases h1 : props.isNil ∧ ty ≠ Option.some "array" ∧ ty ≠ Option.some "string"
      · simp only [if_pos h1]
        exact List.mem_append_left _ hx
      · simp only [if_neg h1]
        by_cases h2 : ty = Option.some "string"
        · simp only [if_pos h2]
          exact List.mem_append_left _ hx
        · simp only [if_neg h2]
          by_cases h3 : ty = Option.some "array"
          · simp only [if_pos h3, assemble_array_model_snd]
            cases items with
            | some item_schema =>
              exact generated_models_subset_model item_schema _ _ _ _ x
                (List.mem_append_left _ hx)
            | none =>
              unfold array_items_absent
              repeat' split
              all_goals first
                | exact List.mem_append_left _ hx
                | exact List.mem_append_left _ (List.mem_append_left _ hx)
                | simp_all
          · simp only [if_neg h3, assemble_object_model_snd]
            exact generated_models_subset_fields props required indent _ _ x
              (List.mem_append_left _ hx)
termination_by structural schema

theorem generated_models_subset_fields (props : SProps) (required : List String)
    (indent : Nat) (indent_str : String) (gen : List String) :
    ∀ x ∈ gen,
      x ∈ (generate_pydantic_fields props required indent indent_str gen).2.2 := by
  intro x hx
  unfold generate_pydantic_fields
  cases props with
  | nil => exact hx
  | cons prop_name prop_schema rest =>
    simp only [assemble_field_set]
    apply generated_models_subset_fields rest required indent indent_str _ x
    by_cases h1 : prop_schema.type = Option.some "object" ∨
        prop_schema.properties.isNil = false
    · simp only [if_pos h1]
      exact generated_models_subset_model prop_schema _ _ _ _ x hx
    · simp only [if_neg h1]
      cases prop_schema with
      | mk ty2 fmt2 props2 items2 req2 nul2 =>
        cases items2 with
        | some item_schema =>
          by_cases h2 : (Schema.mk ty2 fmt2 props2 (SItems.some item_schema) req2 nul2).type
                = Option.some "array" ∧
              (item_schema.type = Option.some "object" ∨
               item_schema.properties.isNil = false)
          · simp only [if_pos h2]
            exact generated_models_subset_model item_schema _ _ _ _ x hx
          · simp only [if_neg h2]
            exact hx
        | none => exact hx
termination_by structural props
end

set_option maxHeartbeats 1000000 in
theorem model_skips_generated (schema : Schema) (model_name : String)
    (field_name : Option String) (indent : Nat) (gen : List String)
    (h : model_name ∈ gen) :
    generate_pydantic_model schema model_name field_name indent gen = ([], gen) := by
  unfold generate_pydantic_model
  rw [if_pos h]

set_option maxHeartbeats 2000000 in
theorem model_name_in_generated (schema : Schema) (model_name : String)
    (field_name : Option String) (indent : Nat) (gen : List String) :
    model_name ∈ (generate_pydantic_model schema model_name field_name indent gen).2 := by
  by_cases hmem : model_name ∈ gen
  · exact generated_models_subset_model schema model_name field_name indent gen
      model_name hmem
  · unfold generate_pydantic_model
    rw [if_neg hmem]
    cases schema with
    | mk ty fmt props items required nullable =>
      have hself : model_name ∈ gen ++ [model_name] :=
        List.mem_append_right _ (List.mem_singleton.mpr rfl)
      by_cases h1 : props.isNil ∧ ty ≠ Option.some "array" ∧ ty ≠ Option.some "string"
      · simp only [if_pos h1]
        exact hself
      · simp only [if_neg h1]
        by_cases h2 : ty = Option.some "string"
        · simp only [if_pos h2]
          exact hself
        · simp only [if_neg h2]
          by_cases h3 : ty = Option.some "array"
          · simp only [if_pos h3, assemble_array_model_snd]
            cases items with
            | some item_schema =>
              exact generated_models_subset_model item_schema _ _ _ _ model_name hself
            | none =>
              unfold array_items_absent
              repeat' split
              all_goals first
                | exact hself
                | exact List.mem_append_left _ hself
                | simp_all
          · simp only [if_neg h3, assemble_object_model_snd]
            exact generated_models_subset_fields props required indent _ _ model_name hself

/-- C8: deduplication in one run of the validation-model generator is by
model name, via the generated-model-name set: after a generation run the
model name is in the set, and a later generation under a name already in
the set emits nothing and leaves the set unchanged — so repeated schemas
under the same derived name collapse to one declaration, while
structurally identical sub-objects under different field names each get
their own declaration. -/
theorem c8_dedup_is_by_model_name (s s2 : Schema) (name : String)
    (f f2 : Option String) (i i2 : Nat) (gen : List String) :
    name ∈ (generate_pydantic_model s name f i gen).2 ∧
    generate_pydantic_model s2 name f2 i2 (generate_pydantic_model s name f i gen).2 =
      ([], (generate_pydantic_model s name f i gen).2) :=
  ⟨model_name_in_generated s name f i gen,
   model_skips_generated s2 name f2 i2 _ (model_name_in_generated s name f i gen)⟩

/-- C8 counterexample to the frozen wording: schema_siblings nests the
same sub-object schema twice, under the field names a and b; one run
emits two structurally identical nested model declarations, one per
derived name, not one. -/
theorem c8_counterexample_identical_siblings_two_models :
    schema_siblings = Schema.obj [("a", schema_sub), ("b", schema_sub)] ∧
    List.countP (fun l => l == "class ResponseSuccessBodyA(BaseModelWithConfig):")
      (generate_pydantic_model schema_siblings "ResponseSuccessBody" Option.none 4 []).1 = 1 ∧
    List.countP (fun l => l == "class ResponseSuccessBodyB(BaseModelWithConfig):")
      (generate_pydantic_model schema_siblings "ResponseSuccessBody" Option.none 4 []).1 = 1 := by
  refine ⟨rfl, ?_, ?_⟩ <;> decide
